import Mathlib

/-!
# Restraint log manager (`src/logging.c`)

A shallow embedding of the per-task log manager: the registry of task log
state (`rstrnt_log_manager_get_task_data`), its construction and teardown
(`rstrnt_task_log_data_new`, `rstrnt_task_log_data_destroy`), the write queue
and its consumer (`rstrnt_write_log_func`), the flush barrier
(`rstrnt_flush_logs`) and the upload path (`rstrnt_upload_log`,
`rstrnt_upload_logs`).

Conventions of the embedding.

* A C pointer that may be `NULL` is an `Option`; dereferencing `NULL` is the
  result `Except.error Fault.null_dereference`.
* Everything the C code reaches through GLib/GIO/libsoup (file system, thread
  pool, HTTP session) is explicit state in `World`; the answers of the
  environment (does `mkdir` fail, does a write fail, ...) are read from `Env`.
* A `GError **` argument is an `ErrorSlot`: `none` is a `NULL` slot,
  `some none` a slot holding no error, `some (some e)` a slot holding `e`.
-/

namespace Restraint

/-! ## Data model -/

/-- A byte buffer (`const char *` with a length). -/
abbrev Bytes := List Char

/-- The two log kinds of `RstrntLogType`. -/
inductive RstrntLogType where
  | RSTRNT_LOG_TYPE_TASK
  | RSTRNT_LOG_TYPE_HARNESS
deriving DecidableEq, Repr

/-- The fields of `RstrntTask` that `logging.c` reads. -/
structure RstrntTask where
  task_id : String
  task_uri : String
deriving DecidableEq, Repr

/-- A `GError`; only its `code` is ever inspected. -/
structure GError where
  code : Nat
deriving DecidableEq, Repr

/-- The value of `G_IO_ERROR_EXISTS` in `GIOErrorEnum`. -/
def G_IO_ERROR_EXISTS : Nat := 2

/-- The value of `G_IO_ERROR_CANCELLED` in `GIOErrorEnum`. -/
def G_IO_ERROR_CANCELLED : Nat := 19

/-- A `GError **` argument. -/
abbrev ErrorSlot := Option (Option GError)

/-- What `g_set_error` / `g_propagate_error` do to a slot: a `NULL` slot drops
the error, an empty slot takes it, an occupied slot keeps what it holds. -/
def g_set_error (error : ErrorSlot) (e : GError) : ErrorSlot :=
  match error with
  | none => none
  | some none => some (some e)
  | some (some old) => some (some old)

/-- What `g_clear_error` does to a slot. -/
def g_clear_error (error : ErrorSlot) : ErrorSlot :=
  match error with
  | none => none
  | some _ => some none

/-- The only fault the embedding tracks: a read or write through `NULL`. -/
inductive Fault where
  | null_dereference
deriving DecidableEq, Repr

/-- The struct `RstrntLogData`: the file (its path) and the append stream opened
on it (`NULL` until `g_file_append_to` has succeeded). -/
structure RstrntLogData where
  file : String
  output_stream : Option String
deriving DecidableEq, Repr

/-- The struct `RstrntLogWriterData`, one job of the write queue: a pointer to
the sink and the payload variant. `g_new0` leaves both `NULL`. -/
structure RstrntLogWriterData where
  log_data : Option RstrntLogData
  variant : Option Bytes
deriving DecidableEq, Repr

/-- The state of a `GThreadPool` created with `max_threads = 1`: the jobs not
yet handed to the worker, in push order, and the number of worker threads. -/
structure GThreadPool where
  queue : List RstrntLogWriterData
  num_threads : Nat
deriving DecidableEq, Repr

/-- The struct `RstrntTaskLogData`; `thread_pool` is the address of the pool in
`World.pools`. `g_new0` leaves all three pointers `NULL`. -/
structure RstrntTaskLogData where
  task_log_data : Option RstrntLogData
  harness_log_data : Option RstrntLogData
  thread_pool : Option Nat
deriving DecidableEq, Repr

/-- The struct `_RstrntLogManager`: the hash table `logs`, keyed by `task_id`. -/
structure RstrntLogManager where
  logs : List (String × RstrntTaskLogData)
deriving DecidableEq, Repr

/-- File-system calls, recorded in `World.ops` in the order they are made. -/
inductive FsOp where
  | make_directory (path : String)
  | append_to (path : String)
  | mapped_file_new (path : String)
deriving DecidableEq, Repr

/-- A request handed to `app_data->queue_message`. The URI is kept as the pair
given to `soup_uri_new_with_base`. -/
structure SoupMessage where
  method : String
  uri_base : String
  uri_relative : String
  request_headers : List (String × String)
  content_type : String
  body : Bytes
deriving DecidableEq, Repr

/-- The result of one `g_output_stream_write_all`: the whole buffer went out, or
the call returned `FALSE` after `count` bytes with `err` set. -/
inductive WriteOutcome where
  | written
  | failed (count : Nat) (err : GError)
deriving DecidableEq, Repr

/-- The mutable state outside the log manager. -/
structure World where
  /-- contents of regular files by path (an absent file reads as empty) -/
  files : String → Bytes
  /-- the thread pools by address -/
  pools : Nat → GThreadPool
  /-- the address the next `g_thread_pool_new` returns -/
  next_pool : Nat
  /-- paths of the append streams that are open -/
  open_streams : List String
  /-- file-system calls made so far -/
  ops : List FsOp
  /-- number of `g_output_stream_write_all` calls made so far -/
  nwrites : Nat
  /-- number of attempts made so far to start a worker thread -/
  nstarts : Nat
  /-- number of `g_warning` messages -/
  warnings : Nat
  /-- number of failed `g_return_if_fail` / `g_return_if_reached` checks -/
  criticals : Nat
  /-- requests handed to the transport, in order -/
  sent : List SoupMessage

/-- The answers of the environment. `none` is success. `write_all k` is the
outcome of the `k`-th call of `g_output_stream_write_all`, and `thread_start k` tells
whether the `k`-th attempt to start a worker thread succeeds. -/
structure Env where
  /-- the macro `LOG_MANAGER_DIR` (`VAR_LIB_PATH "/logs"`), a build setting -/
  log_manager_dir : String
  make_directory : String → Option GError
  append_to : String → Option GError
  thread_pool_new : Option GError
  write_all : Nat → WriteOutcome
  thread_start : Nat → Bool
  flush : String → Option GError
  mapped_file_new : String → Option GError

/-- The result of `g_build_path ("/", a, b, NULL)` and of `g_file_get_child` on
plain path elements: the two joined by one separator. -/
def g_build_path (a b : String) : String := a ++ "/" ++ b

/-- Modelled from the spec: the macro `LOG_PATH_TASK` of `logging.h`, the
relative upload path of the task log ("logs/task.log"). -/
def LOG_PATH_TASK : String := "logs/task.log"

/-- Modelled from the spec: the macro `LOG_PATH_HARNESS` of `logging.h`, the
relative upload path of the harness log ("logs/harness.log"). -/
def LOG_PATH_HARNESS : String := "logs/harness.log"

/-- Lines 193-194 of `rstrnt_task_log_data_new`: the file name of each kind inside
the log directory of the task. -/
def log_file_name (type : RstrntLogType) : String :=
  match type with
  | .RSTRNT_LOG_TYPE_TASK => "task.log"
  | .RSTRNT_LOG_TYPE_HARNESS => "harness.log"

/-- The record `rstrnt_task_log_data_new` returns on success (line 220) for the log
directory `dir` when `g_thread_pool_new` returned the pool at address `pool`. -/
def task_log_data_of (dir : String) (pool : Nat) : RstrntTaskLogData :=
  { task_log_data :=
      some { file := g_build_path dir (log_file_name .RSTRNT_LOG_TYPE_TASK),
             output_stream := some (g_build_path dir (log_file_name .RSTRNT_LOG_TYPE_TASK)) },
    harness_log_data :=
      some { file := g_build_path dir (log_file_name .RSTRNT_LOG_TYPE_HARNESS),
             output_stream := some (g_build_path dir (log_file_name .RSTRNT_LOG_TYPE_HARNESS)) },
    thread_pool := some pool }

/-! ## Registry: hash table, construction, teardown -/

/-- Hash-table lookup (`g_hash_table_lookup` with `g_str_equal`). -/
def g_hash_table_lookup (logs : List (String × RstrntTaskLogData)) (key : String) :
    Option RstrntTaskLogData :=
  match logs with
  | [] => none
  | (k, v) :: rest => if k = key then some v else g_hash_table_lookup rest key

/-- Hash-table insert (`g_hash_table_insert`): the value stored under an equal
key is replaced. -/
def g_hash_table_insert (logs : List (String × RstrntTaskLogData)) (key : String)
    (value : RstrntTaskLogData) : List (String × RstrntTaskLogData) :=
  (key, value) :: logs.filter (fun kv => kv.1 ≠ key)

/-- The function `rstrnt_log_data_destroy`: reads `log_data->output_stream`
without a `NULL` check on `log_data`, then drops the stream and the file. -/
def rstrnt_log_data_destroy (data : Option RstrntLogData) (w : World) : Except Fault World :=
  match data with
  | none => .error .null_dereference
  | some log_data =>
    match log_data.output_stream with
    | none => .ok w
    | some stream => .ok { w with open_streams := w.open_streams.erase stream }

/-- The call `g_thread_pool_free (pool, TRUE, TRUE)`: GLib rejects a `NULL` pool
with a failed check; otherwise queued jobs are discarded and the worker stops. -/
def g_thread_pool_free (pool : Option Nat) (w : World) : World :=
  match pool with
  | none => { w with criticals := w.criticals + 1 }
  | some p => { w with pools := Function.update w.pools p { queue := [], num_threads := 0 } }

/-- The function `rstrnt_task_log_data_destroy`. -/
def rstrnt_task_log_data_destroy (data : RstrntTaskLogData) (w : World) : Except Fault World :=
  match rstrnt_log_data_destroy data.task_log_data w with
  | .error f => .error f
  | .ok w1 =>
    match rstrnt_log_data_destroy data.harness_log_data w1 with
    | .error f => .error f
    | .ok w2 => .ok (g_thread_pool_free data.thread_pool w2)

/-- The function `rstrnt_log_data_new`. -/
def rstrnt_log_data_new (env : Env) (file : String) (error : ErrorSlot) (w : World) :
    Except Fault (Option RstrntLogData × ErrorSlot × World) :=
  let w1 := { w with ops := w.ops ++ [FsOp.append_to file] }
  match env.append_to file with
  | none =>
    .ok (some { file := file, output_stream := some file }, error,
         { w1 with open_streams := file :: w1.open_streams })
  | some e =>
    match rstrnt_log_data_destroy (some { file := file, output_stream := none }) w1 with
    | .error f => .error f
    | .ok w2 => .ok (none, g_set_error error e, w2)

/-- The call `g_thread_pool_new (rstrnt_write_log_func, NULL, 1, FALSE, error)`. -/
def g_thread_pool_new (env : Env) (error : ErrorSlot) (w : World) :
    Option Nat × ErrorSlot × World :=
  match env.thread_pool_new with
  | none =>
    (some w.next_pool, error,
     { w with pools := Function.update w.pools w.next_pool { queue := [], num_threads := 0 },
              next_pool := w.next_pool + 1 })
  | some e => (none, g_set_error error e, w)

/-- Lines 193-220 of `rstrnt_task_log_data_new`: open both sinks, create the
queue, clean up on failure. -/
def rstrnt_task_log_data_new_sinks (env : Env) (log_directory : String) (error : ErrorSlot)
    (w : World) : Except Fault (Option RstrntTaskLogData × ErrorSlot × World) :=
  let task_log_file := g_build_path log_directory "task.log"
  let harness_log_file := g_build_path log_directory "harness.log"
  let data : RstrntTaskLogData :=
    { task_log_data := none, harness_log_data := none, thread_pool := none }
  match rstrnt_log_data_new env task_log_file error w with
  | .error f => .error f
  | .ok (none, error1, w1) =>
    match rstrnt_task_log_data_destroy data w1 with
    | .error f => .error f
    | .ok w2 => .ok (none, error1, w2)
  | .ok (some task_log_data, error1, w1) =>
    let data := { data with task_log_data := some task_log_data }
    match rstrnt_log_data_new env harness_log_file error1 w1 with
    | .error f => .error f
    | .ok (none, error2, w2) =>
      match rstrnt_task_log_data_destroy data w2 with
      | .error f => .error f
      | .ok w3 => .ok (none, error2, w3)
    | .ok (some harness_log_data, error2, w2) =>
      let data := { data with harness_log_data := some harness_log_data }
      match g_thread_pool_new env error2 w2 with
      | (none, error3, w3) =>
        match rstrnt_task_log_data_destroy data w3 with
        | .error f => .error f
        | .ok w4 => .ok (none, error3, w4)
      | (some pool, error3, w3) =>
        .ok (some { data with thread_pool := some pool }, error3, w3)

/-- The function `rstrnt_task_log_data_new`. The directory step (lines 180-191)
returns `NULL` when the slot is not `NULL` and holds a code other than
`G_IO_ERROR_EXISTS`; otherwise the slot is cleared and creation goes on. -/
def rstrnt_task_log_data_new (env : Env) (task : RstrntTask) (error : ErrorSlot) (w : World) :
    Except Fault (Option RstrntTaskLogData × ErrorSlot × World) :=
  let log_directory := g_build_path env.log_manager_dir task.task_id
  let w1 := { w with ops := w.ops ++ [FsOp.make_directory log_directory] }
  match env.make_directory log_directory with
  | none => rstrnt_task_log_data_new_sinks env log_directory error w1
  | some e =>
    match g_set_error error e with
    | none => rstrnt_task_log_data_new_sinks env log_directory (g_clear_error none) w1
    | some none => .error .null_dereference
    | some (some held) =>
      if G_IO_ERROR_EXISTS ≠ held.code then .ok (none, some (some held), w1)
      else rstrnt_task_log_data_new_sinks env log_directory (g_clear_error (some (some held))) w1

/-- The function `rstrnt_log_manager_get_task_data`. -/
def rstrnt_log_manager_get_task_data (env : Env) (self : RstrntLogManager) (task : RstrntTask)
    (error : ErrorSlot) (w : World) :
    Except Fault (Option RstrntTaskLogData × ErrorSlot × RstrntLogManager × World) :=
  match g_hash_table_lookup self.logs task.task_id with
  | some data => .ok (some data, error, self, w)
  | none =>
    match rstrnt_task_log_data_new env task error w with
    | .error f => .error f
    | .ok (none, error1, w1) => .ok (none, error1, self, w1)
    | .ok (some data, error1, w1) =>
      .ok (some data, error1, { logs := g_hash_table_insert self.logs task.task_id data }, w1)

/-! ## Write queue and consumer -/

/-- The call `g_thread_pool_push (pool, data, NULL)` on a pool with
`max_threads = 1`, its result discarded as at lines 274 and 429. The job goes to the
tail of the queue in every case. When the pool has no worker thread, GLib tries to
start one: on success `num_threads` becomes 1, on failure (the call would return
`FALSE`) the job stays queued and `num_threads` stays 0. GLib rejects a `NULL` pool
with a failed check. -/
def g_thread_pool_push (env : Env) (pool : Option Nat) (data : RstrntLogWriterData)
    (w : World) : World :=
  match pool with
  | none => { w with criticals := w.criticals + 1 }
  | some p =>
    let pool : GThreadPool :=
      { queue := (w.pools p).queue ++ [data],
        num_threads :=
          if (w.pools p).num_threads < 1 ∧ env.thread_start w.nstarts = true
          then (w.pools p).num_threads + 1
          else (w.pools p).num_threads }
    { w with pools := Function.update w.pools p pool,
             nstarts := if (w.pools p).num_threads < 1 then w.nstarts + 1 else w.nstarts }

/-- The call `g_output_stream_write_all (stream, message, length, ...)` as the
`k`-th write: nothing is asked of the stream for an empty buffer. -/
def g_output_stream_write_all (env : Env) (k : Nat) (message : Bytes) : WriteOutcome :=
  if message = [] then .written else env.write_all k

/-- The function `rstrnt_write_log_func`, the body of the single worker. A job with
neither variant nor sink is the sentinel and does no I/O. -/
def rstrnt_write_log_func (env : Env) (writer_data : RstrntLogWriterData) (w : World) :
    Except Fault World :=
  match writer_data.variant, writer_data.log_data with
  | none, none => .ok w
  | some message, some log_data =>
    match log_data.output_stream with
    | none => .error .null_dereference
    | some stream =>
      match g_output_stream_write_all env w.nwrites message with
      | .written =>
        .ok { w with files := Function.update w.files stream (w.files stream ++ message),
                     nwrites := w.nwrites + 1 }
      | .failed count _ =>
        .ok { w with files := Function.update w.files stream
                                (w.files stream ++ message.take count),
                     nwrites := w.nwrites + 1,
                     warnings := w.warnings + 1 }
  | _, _ => .error .null_dereference

/-- The worker of the pool applied to a list of jobs in order: it calls
`rstrnt_write_log_func` on one job after the other. -/
def g_thread_pool_run_jobs (env : Env) : List RstrntLogWriterData → World → Except Fault World
  | [], w => .ok w
  | job :: rest, w =>
    match rstrnt_write_log_func env job w with
    | .error f => .error f
    | .ok w1 => g_thread_pool_run_jobs env rest w1

/-- One turn of the worker of pool `p`: it takes the job at the head of the queue,
if any, and runs `rstrnt_write_log_func` on it. -/
def g_thread_pool_work (env : Env) (p : Nat) (w : World) : Except Fault World :=
  match (w.pools p).queue with
  | [] => .ok w
  | job :: rest =>
    rstrnt_write_log_func env job
      { w with pools := Function.update w.pools p { (w.pools p) with queue := rest } }

/-- The worker of pool `p` running until the queue is empty. -/
def g_thread_pool_drain (env : Env) (p : Nat) (w : World) : Except Fault World :=
  g_thread_pool_run_jobs env (w.pools p).queue
    { w with pools := Function.update w.pools p { (w.pools p) with queue := [] } }

/-- Lines 410-427 of `rstrnt_log_manager_append_to_log`: the job built for one
append call. -/
def rstrnt_log_manager_append_to_log_job (data : RstrntTaskLogData) (type : RstrntLogType)
    (message : Bytes) : RstrntLogWriterData :=
  { log_data :=
      match type with
      | .RSTRNT_LOG_TYPE_TASK => data.task_log_data
      | .RSTRNT_LOG_TYPE_HARNESS => data.harness_log_data,
    variant := some message }

/-- The function `rstrnt_log_manager_append_to_log`. -/
def rstrnt_log_manager_append_to_log (env : Env) (self : RstrntLogManager) (task : RstrntTask)
    (type : RstrntLogType) (message : Bytes) (w : World) :
    Except Fault (RstrntLogManager × World) :=
  match rstrnt_log_manager_get_task_data env self task (some none) w with
  | .error f => .error f
  | .ok (none, _, self1, w1) => .ok (self1, { w1 with criticals := w1.criticals + 1 })
  | .ok (some data, _, self1, w1) =>
    .ok (self1, g_thread_pool_push env data.thread_pool
                  (rstrnt_log_manager_append_to_log_job data type message) w1)

/-- The function `rstrnt_log_bytes` for a task and a message that are not `NULL`. -/
def rstrnt_log_bytes (env : Env) (self : RstrntLogManager) (task : RstrntTask)
    (type : RstrntLogType) (message : Bytes) (w : World) :
    Except Fault (RstrntLogManager × World) :=
  rstrnt_log_manager_append_to_log env self task type message w

/-- One event in the life of the log of a task: a call of `rstrnt_log_bytes` for the
task, or a turn of the worker of its pool. -/
inductive LogEvent where
  | log (type : RstrntLogType) (message : Bytes)
  | work
deriving DecidableEq, Repr

/-- A run of events for one task: calls are made in order, and between them the
worker of pool `pool` takes its turns where the schedule says so. -/
def run_log_events (env : Env) (task : RstrntTask) (pool : Nat) :
    List LogEvent → RstrntLogManager × World → Except Fault (RstrntLogManager × World)
  | [], state => .ok state
  | .log type message :: rest, (self, w) =>
    match rstrnt_log_bytes env self task type message w with
    | .error f => .error f
    | .ok state1 => run_log_events env task pool rest state1
  | .work :: rest, (self, w) =>
    match g_thread_pool_work env pool w with
    | .error f => .error f
    | .ok w1 => run_log_events env task pool rest (self, w1)

/-- The append calls of a run, in order. -/
def log_calls : List LogEvent → List (RstrntLogType × Bytes)
  | [] => []
  | .log type message :: rest => (type, message) :: log_calls rest
  | .work :: rest => log_calls rest

/-! ## Flush barrier -/

/-- Line 273 of `rstrnt_flush_logs`: the sentinel, a zeroed `RstrntLogWriterData`. -/
def rstrnt_flush_logs_sentinel : RstrntLogWriterData :=
  { log_data := none, variant := none }

/-- Lines 276-277 of `rstrnt_flush_logs`: the condition of the wait loop on the
values read from `g_thread_pool_unprocessed` and `g_thread_pool_get_num_threads`. -/
def rstrnt_flush_logs_keeps_waiting (unprocessed num_threads : Nat) : Bool :=
  decide (unprocessed > 0) && decide (num_threads > 0)

/-- Lines 276-280 of `rstrnt_flush_logs` in a sequential run: during each
`g_usleep` the worker handles the job at the head of the queue. Returns the jobs
left in the queue when the loop ends. -/
def rstrnt_flush_logs_wait_jobs (env : Env) (num_threads : Nat) :
    List RstrntLogWriterData → World → Except Fault (List RstrntLogWriterData × World)
  | [], w => .ok ([], w)
  | job :: rest, w =>
    if rstrnt_flush_logs_keeps_waiting (job :: rest).length num_threads then
      match rstrnt_write_log_func env job w with
      | .error f => .error f
      | .ok w1 => rstrnt_flush_logs_wait_jobs env num_threads rest w1
    else .ok (job :: rest, w)

/-- The wait loop of `rstrnt_flush_logs` on the pool of the task. On a `NULL` pool
both GLib queries fail their check and return 0, so the loop ends at once. -/
def rstrnt_flush_logs_wait (env : Env) (pool : Option Nat) (w : World) : Except Fault World :=
  match pool with
  | none => .ok { w with criticals := w.criticals + 1 }
  | some p =>
    match rstrnt_flush_logs_wait_jobs env (w.pools p).num_threads (w.pools p).queue w with
    | .error f => .error f
    | .ok (rest, w1) =>
      .ok { w1 with pools := Function.update w1.pools p { (w1.pools p) with queue := rest } }

/-- One `g_output_stream_flush` of `rstrnt_flush_logs` with its warning: a failure
is reported unless the code held by `error` is `G_IO_ERROR_CANCELLED`. -/
def rstrnt_flush_logs_stream (env : Env) (log_data : Option RstrntLogData)
    (error : Option GError) (w : World) : Except Fault (Option GError × World) :=
  match log_data with
  | none => .error .null_dereference
  | some sink =>
    match sink.output_stream with
    | none =>
      match error with
      | none => .error .null_dereference
      | some held =>
        .ok (some held, if G_IO_ERROR_CANCELLED ≠ held.code
                        then { w with criticals := w.criticals + 1, warnings := w.warnings + 1 }
                        else { w with criticals := w.criticals + 1 })
    | some stream =>
      match env.flush stream with
      | none => .ok (error, w)
      | some e =>
        let held := match error with
          | none => e
          | some old => old
        .ok (some held, if G_IO_ERROR_CANCELLED ≠ held.code
                        then { w with warnings := w.warnings + 1 } else w)

/-- The function `rstrnt_flush_logs` for a task that is not `NULL`. -/
def rstrnt_flush_logs (env : Env) (self : RstrntLogManager) (task : RstrntTask) (w : World) :
    Except Fault (RstrntLogManager × World) :=
  match rstrnt_log_manager_get_task_data env self task (some none) w with
  | .error f => .error f
  | .ok (none, _, self1, w1) => .ok (self1, { w1 with criticals := w1.criticals + 1 })
  | .ok (some data, error1, self1, w1) =>
    let w2 := g_thread_pool_push env data.thread_pool rstrnt_flush_logs_sentinel w1
    match rstrnt_flush_logs_wait env data.thread_pool w2 with
    | .error f => .error f
    | .ok w3 =>
      match rstrnt_flush_logs_stream env data.task_log_data error1.join w3 with
      | .error f => .error f
      | .ok (error2, w4) =>
        match rstrnt_flush_logs_stream env data.harness_log_data error2 w4 with
        | .error f => .error f
        | .ok (_, w5) => .ok (self1, w5)

/-! ## The queue, its worker and the flush barrier as a transition system -/

/-- Where the thread running `rstrnt_flush_logs` stands. -/
inductive FlushPhase where
  /-- not between lines 273 and 280 and no loop exit yet -/
  | idle
  /-- the sentinel is pushed (line 274) and the loop condition is about to be read -/
  | waiting
  /-- the first conjunct of line 276 was true for the value `unprocessed`; the second
  conjunct (line 277) is about to be read -/
  | saw_unprocessed (unprocessed : Nat)
  /-- the wait loop has ended: line 282 onwards, the stream flush and then the upload -/
  | flushing
deriving DecidableEq, Repr

/-- The state of one task's queue with its worker and one flushing thread. The last
three fields are history kept for the statement of the barrier property. -/
structure QueueState where
  world : World
  /-- the job the worker has taken from the queue and is running, if any -/
  running : Option RstrntLogWriterData
  phase : FlushPhase
  /-- every job pushed so far, in push order -/
  pushed : List RstrntLogWriterData
  /-- every job on which `rstrnt_write_log_func` has returned, in order -/
  applied : List RstrntLogWriterData
  /-- the number of jobs pushed before the latest sentinel -/
  mark : Nat

/-- The atomic steps of producers, worker and flushing thread. -/
inductive QueueAction where
  /-- line 429: a producer pushes the job of an append call -/
  | append (type : RstrntLogType) (message : Bytes)
  /-- lines 273-274: the flushing thread pushes the sentinel -/
  | flush_push
  /-- line 276: the flushing thread reads `g_thread_pool_unprocessed`. GLib reports the
  queue length less the workers blocked waiting for a job, so with `hidden` an idle
  worker hides one queued job -/
  | read_unprocessed (hidden : Bool)
  /-- line 277: the flushing thread reads `g_thread_pool_get_num_threads` -/
  | read_num_threads
  /-- the worker takes the job at the head of the queue -/
  | dequeue
  /-- the worker runs `rstrnt_write_log_func` on the job it holds, to its return -/
  | apply
  /-- the worker, idle with an empty queue, leaves the pool -/
  | retire
deriving DecidableEq, Repr

/-- One step of the transition system for the pool at address `pool` of the record
`data`; `none` when the action is not enabled in the state. -/
def queue_step (env : Env) (data : RstrntTaskLogData) (pool : Nat) (a : QueueAction)
    (s : QueueState) : Option QueueState :=
  match a with
  | .append type message =>
    let job := rstrnt_log_manager_append_to_log_job data type message
    some { s with world := g_thread_pool_push env (some pool) job s.world,
                  pushed := s.pushed ++ [job] }
  | .flush_push =>
    if s.phase = .idle ∨ s.phase = .flushing then
      some { s with world := g_thread_pool_push env (some pool) rstrnt_flush_logs_sentinel
                               s.world,
                    pushed := s.pushed ++ [rstrnt_flush_logs_sentinel],
                    mark := s.pushed.length,
                    phase := .waiting }
    else none
  | .read_unprocessed hidden =>
    if s.phase = .waiting ∧
        (hidden = true → s.running = none ∧ 0 < (s.world.pools pool).num_threads) then
      let unprocessed := (s.world.pools pool).queue.length - (if hidden then 1 else 0)
      some { s with phase := if unprocessed > 0 then .saw_unprocessed unprocessed
                             else .flushing }
    else none
  | .read_num_threads =>
    match s.phase with
    | .saw_unprocessed unprocessed =>
      some { s with phase :=
        if rstrnt_flush_logs_keeps_waiting unprocessed (s.world.pools pool).num_threads
        then .waiting else .flushing }
    | _ => none
  | .dequeue =>
    match s.running, (s.world.pools pool).queue with
    | none, job :: rest =>
      if 0 < (s.world.pools pool).num_threads then
        some { s with
          world := { s.world with
            pools := Function.update s.world.pools pool
              { queue := rest, num_threads := (s.world.pools pool).num_threads } },
          running := some job }
      else none
    | _, _ => none
  | .apply =>
    match s.running with
    | none => none
    | some job =>
      match rstrnt_write_log_func env job s.world with
      | .error _ => none
      | .ok w1 => some { s with world := w1, running := none, applied := s.applied ++ [job] }
  | .retire =>
    if s.running = none ∧ (s.world.pools pool).queue = [] ∧
        0 < (s.world.pools pool).num_threads then
      some { s with
        world := { s.world with
          pools := Function.update s.world.pools pool { queue := [], num_threads := 0 } } }
    else none

/-- A run of the transition system: the actions in order, `none` as soon as one is
not enabled. -/
def queue_run (env : Env) (data : RstrntTaskLogData) (pool : Nat) :
    List QueueAction → QueueState → Option QueueState
  | [], s => some s
  | a :: rest, s =>
    match queue_step env data pool a s with
    | none => none
    | some s1 => queue_run env data pool rest s1

/-- The initial state: the pool as `g_thread_pool_new` leaves it (empty queue, no
worker thread), nothing pushed, no flush under way. -/
def queue_init (w : World) (pool : Nat) : QueueState :=
  { world := { w with pools := Function.update w.pools pool { queue := [], num_threads := 0 } },
    running := none,
    phase := .idle,
    pushed := [],
    applied := [],
    mark := 0 }

/-- The invariant of the transition system for the pool at address `pool`. -/
structure QueueInv (pool : Nat) (s : QueueState) : Prop where
  /-- the jobs pushed are those applied, then the one running, then those queued -/
  parts : s.pushed = s.applied ++ s.running.toList ++ (s.world.pools pool).queue
  /-- without a worker thread nothing is running and nothing is queued (kept by the
  steps when every thread start succeeds) -/
  worker : (s.world.pools pool).num_threads = 0 →
    s.running = none ∧ (s.world.pools pool).queue = []
  /-- once a flush has begun, `mark` is the position of its sentinel -/
  sentinel : s.phase ≠ .idle →
    s.mark < s.pushed.length ∧ s.pushed[s.mark]? = some rstrnt_flush_logs_sentinel
  /-- a value that passed the first conjunct is positive -/
  seen : ∀ u, s.phase = .saw_unprocessed u → 0 < u
  /-- after the loop has ended, everything before the sentinel has been applied -/
  barrier : s.phase = .flushing → s.mark ≤ s.applied.length

/-! ## Upload -/

/-- The function `rstrnt_upload_log`. -/
def rstrnt_upload_log (env : Env) (self : RstrntLogManager) (task : RstrntTask)
    (type : RstrntLogType) (w : World) : Except Fault (RstrntLogManager × World) :=
  match rstrnt_log_manager_get_task_data env self task (some none) w with
  | .error f => .error f
  | .ok (none, _, self1, w1) => .ok (self1, { w1 with criticals := w1.criticals + 1 })
  | .ok (some data, _, self1, w1) =>
    let sink := match type with
      | .RSTRNT_LOG_TYPE_TASK => data.task_log_data
      | .RSTRNT_LOG_TYPE_HARNESS => data.harness_log_data
    let log_path := match type with
      | .RSTRNT_LOG_TYPE_TASK => LOG_PATH_TASK
      | .RSTRNT_LOG_TYPE_HARNESS => LOG_PATH_HARNESS
    match sink with
    | none => .error .null_dereference
    | some log_data =>
      let path := log_data.file
      let w2 := { w1 with ops := w1.ops ++ [FsOp.mapped_file_new path] }
      match env.mapped_file_new path with
      | some _ =>
        .ok (self1, { w2 with warnings := w2.warnings + 1, criticals := w2.criticals + 1 })
      | none =>
        let message : SoupMessage :=
          { method := "PUT",
            uri_base := task.task_uri,
            uri_relative := log_path,
            request_headers := [("log-level", "2")],
            content_type := "text/plain",
            body := w2.files path }
        .ok (self1, { w2 with sent := w2.sent ++ [message] })

/-- The function `rstrnt_upload_logs` for arguments that pass its three checks. -/
def rstrnt_upload_logs (env : Env) (self : RstrntLogManager) (task : RstrntTask) (w : World) :
    Except Fault (RstrntLogManager × World) :=
  match rstrnt_flush_logs env self task w with
  | .error f => .error f
  | .ok (self1, w1) =>
    match rstrnt_upload_log env self1 task .RSTRNT_LOG_TYPE_TASK w1 with
    | .error f => .error f
    | .ok (self2, w2) => rstrnt_upload_log env self2 task .RSTRNT_LOG_TYPE_HARNESS w2

/-! ## Specification-side definitions -/

/-- What the `k`-th `write_all` puts into the file when asked to write `message`:
all of it on success, the first `count` bytes on a failure after `count` bytes. -/
def spec_write_piece (env : Env) (k : Nat) (message : Bytes) : Bytes :=
  match g_output_stream_write_all env k message with
  | .written => message
  | .failed count _ => message.take count

/-- The bytes a list of append calls, handled in order as writes number `k`, `k+1`,
..., puts into the file of kind `type`: the piece of each call of that kind, in
call order. -/
def spec_written_bytes (env : Env) (type : RstrntLogType) (k : Nat)
    (calls : List (RstrntLogType × Bytes)) : Bytes :=
  (calls.enumFrom k).flatMap fun kc =>
    if kc.2.1 = type then spec_write_piece env kc.1 kc.2.2 else []

/-- The number of failed writes among a list of append calls handled in order as
writes number `k`, `k+1`, .... -/
def spec_failed_writes (env : Env) (k : Nat) (calls : List (RstrntLogType × Bytes)) : Nat :=
  ((calls.enumFrom k).filter fun kc =>
    decide (g_output_stream_write_all env kc.1 kc.2.2 ≠ .written)).length

/-- The payloads of the calls of kind `type`, concatenated in call order. -/
def spec_payloads (type : RstrntLogType) (calls : List (RstrntLogType × Bytes)) : Bytes :=
  calls.flatMap fun c => if c.1 = type then c.2 else []

/-- The payload a job carries for the stream `stream`: its message when it is a write
job for that stream, nothing otherwise (the sentinel carries nothing). -/
def job_payload (stream : String) (job : RstrntLogWriterData) : Bytes :=
  match job.variant, job.log_data with
  | some message, some log_data =>
    if log_data.output_stream = some stream then message else []
  | _, _ => []

/-! ## Fixtures -/

/-- An environment in which every call succeeds. -/
def env_ok : Env :=
  { log_manager_dir := "/var/lib/restraint/logs",
    make_directory := fun _ => none,
    append_to := fun _ => none,
    thread_pool_new := none,
    write_all := fun _ => .written,
    thread_start := fun _ => true,
    flush := fun _ => none,
    mapped_file_new := fun _ => none }

/-- A world with no files, no pools and no history. -/
def world_empty : World :=
  { files := fun _ => [],
    pools := fun _ => { queue := [], num_threads := 0 },
    next_pool := 0,
    open_streams := [],
    ops := [],
    nwrites := 0,
    nstarts := 0,
    warnings := 0,
    criticals := 0,
    sent := [] }

/-- A manager with an empty hash table, as `rstrnt_log_manager_init` leaves it. -/
def manager_empty : RstrntLogManager := { logs := [] }

/-- As `env_ok`, but `task.log` of task "T1" cannot be opened for append
(code 14, `G_IO_ERROR_PERMISSION_DENIED`). -/
def env_task_log_refused : Env :=
  { env_ok with
    append_to := fun path =>
      if path = "/var/lib/restraint/logs/T1/task.log" then some { code := 14 } else none }

/-- As `env_ok`, but `harness.log` of task "T1" cannot be opened for append. -/
def env_harness_log_refused : Env :=
  { env_ok with
    append_to := fun path =>
      if path = "/var/lib/restraint/logs/T1/harness.log" then some { code := 14 } else none }

/-- As `env_ok`, but the log directory exists already. -/
def env_directory_exists : Env :=
  { env_ok with make_directory := fun _ => some { code := G_IO_ERROR_EXISTS } }

/-- As `env_ok`, but the log directory cannot be created (code 14). -/
def env_directory_refused : Env :=
  { env_ok with make_directory := fun _ => some { code := 14 } }

/-- As `env_ok`, but the second write fails after one byte (code 12,
`G_IO_ERROR_NO_SPACE`). -/
def env_second_write_fails : Env :=
  { env_ok with
    write_all := fun k => if k = 1 then .failed 1 { code := 12 } else .written }

/-- As `env_ok`, but no worker thread can be started. -/
def env_thread_refused : Env :=
  { env_ok with thread_start := fun _ => false }

/-- The task of the upload scenario. -/
def task_T1 : RstrntTask := { task_id := "T1", task_uri := "http://lab.example/recipes/1/tasks/T1/" }

/-- The record that creation builds for task "T1" in an empty world. -/
def data_T1 : RstrntTaskLogData :=
  { task_log_data := some { file := "/var/lib/restraint/logs/T1/task.log",
                            output_stream := some "/var/lib/restraint/logs/T1/task.log" },
    harness_log_data := some { file := "/var/lib/restraint/logs/T1/harness.log",
                               output_stream := some "/var/lib/restraint/logs/T1/harness.log" },
    thread_pool := some 0 }

/-- A manager in which task "T1" is registered. -/
def manager_T1 : RstrntLogManager := { logs := [("T1", data_T1)] }

/-- Four append calls for task "T1". -/
def calls_T1 : List (RstrntLogType × Bytes) :=
  [(.RSTRNT_LOG_TYPE_TASK, "ab".toList), (.RSTRNT_LOG_TYPE_TASK, "cd".toList),
   (.RSTRNT_LOG_TYPE_HARNESS, "e".toList), (.RSTRNT_LOG_TYPE_TASK, "fg".toList)]

/-- A world in which pool 0 holds the jobs of `calls_T1`. -/
def world_queued : World :=
  { world_empty with
    pools := fun _ =>
      { queue := calls_T1.map fun c => rstrnt_log_manager_append_to_log_job data_T1 c.1 c.2,
        num_threads := 1 } }

/-- The state of the upload scenario before the upload: "hello" has been appended to
kind TASK and "world" to kind HARNESS of the unregistered task "T1". -/
def scenario_state : RstrntLogManager × World :=
  match rstrnt_log_bytes env_ok manager_empty task_T1 .RSTRNT_LOG_TYPE_TASK
      "hello\n".toList world_empty with
  | .error _ => (manager_empty, world_empty)
  | .ok (self, w) =>
    match rstrnt_log_bytes env_ok self task_T1 .RSTRNT_LOG_TYPE_HARNESS
        "world\n".toList w with
    | .error _ => (manager_empty, world_empty)
    | .ok state => state

/-- A run with the worker taking turns between the calls. -/
def events_T1 : List LogEvent :=
  [.log .RSTRNT_LOG_TYPE_TASK "hello\n".toList, .work,
   .log .RSTRNT_LOG_TYPE_HARNESS "world\n".toList,
   .log .RSTRNT_LOG_TYPE_TASK "again\n".toList, .work]

/-- A run of the transition system: one append, the flush pushes its sentinel, the
worker applies the append and takes the sentinel, the flush reads the queue length. -/
def actions_barrier : List QueueAction :=
  [.append .RSTRNT_LOG_TYPE_TASK "a".toList, .flush_push, .dequeue, .apply, .dequeue,
   .read_unprocessed false]

/-- A run of the transition system without any worker step: one append, the flush
pushes its sentinel and reads the two values of its loop condition. -/
def actions_no_worker : List QueueAction :=
  [.append .RSTRNT_LOG_TYPE_TASK "a".toList, .flush_push, .read_unprocessed false,
   .read_num_threads]

/-- A run of the transition system: the flush pushes its sentinel, the worker handles
it, a later append is taken by the worker, and the flush reads the queue length. -/
def actions_busy : List QueueAction :=
  [.flush_push, .dequeue, .apply, .append .RSTRNT_LOG_TYPE_TASK "late".toList, .dequeue,
   .read_unprocessed false]

/-! # Theorems -/

/-! ## Construction: case lemmas -/

/-- The two log files of a directory have different paths. -/
theorem g_build_path_task_ne_harness (dir : String) :
    g_build_path dir "task.log" ≠ g_build_path dir "harness.log" := by
  intro h
  have h2 := congrArg String.data h
  simp [g_build_path, String.data_append] at h2

/-- Opening a sink whose file can be opened for append. -/
theorem rstrnt_log_data_new_opened (env : Env) (file : String) (error : ErrorSlot) (w : World)
    (h : env.append_to file = none) :
    rstrnt_log_data_new env file error w =
      .ok (some { file := file, output_stream := some file }, error,
           { w with ops := w.ops ++ [FsOp.append_to file],
                    open_streams := file :: w.open_streams }) := by
  simp [rstrnt_log_data_new, h]

/-- Opening a sink whose file cannot be opened: `NULL` and the error, no stream. -/
theorem rstrnt_log_data_new_refused (env : Env) (file : String) (error : ErrorSlot) (w : World)
    (e : GError) (h : env.append_to file = some e) :
    rstrnt_log_data_new env file error w =
      .ok (none, g_set_error error e, { w with ops := w.ops ++ [FsOp.append_to file] }) := by
  simp [rstrnt_log_data_new, h, rstrnt_log_data_destroy]

/-- Cleanup of a state record whose task sink is still `NULL` faults. -/
theorem rstrnt_task_log_data_destroy_no_task_sink (data : RstrntTaskLogData) (w : World)
    (h : data.task_log_data = none) :
    rstrnt_task_log_data_destroy data w = .error .null_dereference := by
  simp [rstrnt_task_log_data_destroy, rstrnt_log_data_destroy, h]

/-- Cleanup of a state record whose harness sink is still `NULL` faults. -/
theorem rstrnt_task_log_data_destroy_no_harness_sink (data : RstrntTaskLogData) (w : World)
    (h : data.harness_log_data = none) :
    rstrnt_task_log_data_destroy data w = .error .null_dereference := by
  unfold rstrnt_task_log_data_destroy
  cases ht : rstrnt_log_data_destroy data.task_log_data w with
  | error f => cases f; rfl
  | ok w1 => simp [rstrnt_log_data_destroy, h]

/-- When the task sink cannot be opened, the sink phase of creation faults. -/
theorem new_sinks_task_refused (env : Env) (dir : String) (error : ErrorSlot) (w : World)
    (e : GError) (h : env.append_to (g_build_path dir "task.log") = some e) :
    rstrnt_task_log_data_new_sinks env dir error w = .error .null_dereference := by
  simp [rstrnt_task_log_data_new_sinks, rstrnt_log_data_new_refused _ _ _ _ e h,
    rstrnt_task_log_data_destroy, rstrnt_log_data_destroy]

/-- When the harness sink cannot be opened, the sink phase of creation faults. -/
theorem new_sinks_harness_refused (env : Env) (dir : String) (error : ErrorSlot) (w : World)
    (e : GError) (ht : env.append_to (g_build_path dir "task.log") = none)
    (h : env.append_to (g_build_path dir "harness.log") = some e) :
    rstrnt_task_log_data_new_sinks env dir error w = .error .null_dereference := by
  simp [rstrnt_task_log_data_new_sinks, rstrnt_log_data_new_opened _ _ _ _ ht,
    rstrnt_log_data_new_refused _ _ _ _ e h,
    rstrnt_task_log_data_destroy, rstrnt_log_data_destroy]

/-- When both sinks open and the pool is created, the sink phase returns the
complete record and the world with the two streams open and a fresh idle pool. -/
theorem new_sinks_created (env : Env) (dir : String) (error : ErrorSlot) (w : World)
    (ht : env.append_to (g_build_path dir "task.log") = none)
    (hh : env.append_to (g_build_path dir "harness.log") = none)
    (hp : env.thread_pool_new = none) :
    rstrnt_task_log_data_new_sinks env dir error w =
      .ok (some { task_log_data := some { file := g_build_path dir "task.log",
                                          output_stream := some (g_build_path dir "task.log") },
                  harness_log_data := some { file := g_build_path dir "harness.log",
                                             output_stream := some (g_build_path dir "harness.log") },
                  thread_pool := some w.next_pool },
           error,
           { w with ops := w.ops ++ [FsOp.append_to (g_build_path dir "task.log")]
                          ++ [FsOp.append_to (g_build_path dir "harness.log")],
                    open_streams := g_build_path dir "harness.log"
                                      :: g_build_path dir "task.log" :: w.open_streams,
                    pools := Function.update w.pools w.next_pool { queue := [], num_threads := 0 },
                    next_pool := w.next_pool + 1 }) := by
  simp [rstrnt_task_log_data_new_sinks, rstrnt_log_data_new_opened _ _ _ _ ht,
    rstrnt_log_data_new_opened _ _ _ _ hh, g_thread_pool_new, hp]

/-- Every result of the sink phase that is not a fault has attempted to open
`task.log`: the call is in the trace right after what was there before. -/
theorem new_sinks_ops (env : Env) (dir : String) (error : ErrorSlot) (w : World)
    (r : Option RstrntTaskLogData) (error1 : ErrorSlot) (w1 : World)
    (h : rstrnt_task_log_data_new_sinks env dir error w = .ok (r, error1, w1)) :
    w.ops.length < w1.ops.length := by
  cases ht : env.append_to (g_build_path dir "task.log") with
  | some e => rw [new_sinks_task_refused env dir error w e ht] at h; cases h
  | none =>
    cases hh : env.append_to (g_build_path dir "harness.log") with
    | some e => rw [new_sinks_harness_refused env dir error w e ht hh] at h; cases h
    | none =>
      cases hp : env.thread_pool_new with
      | none =>
        rw [new_sinks_created env dir error w ht hh hp] at h
        cases h
        simp
      | some e =>
        simp [rstrnt_task_log_data_new_sinks, rstrnt_log_data_new_opened _ _ _ _ ht,
          rstrnt_log_data_new_opened _ _ _ _ hh, g_thread_pool_new, hp,
          rstrnt_task_log_data_destroy, rstrnt_log_data_destroy, g_thread_pool_free] at h
        obtain ⟨-, -, rfl⟩ := h
        simp

/-! ## Registry: get-or-create -/

/-- The directory step with a supplied, empty slot and an error other than
already-exists: creation stops there, nothing is opened, the error is returned. -/
theorem task_log_data_new_directory_refused (env : Env) (task : RstrntTask) (w : World)
    (e : GError)
    (hd : env.make_directory (g_build_path env.log_manager_dir task.task_id) = some e)
    (hc : e.code ≠ G_IO_ERROR_EXISTS) :
    rstrnt_task_log_data_new env task (some none) w =
      .ok (none, some (some e),
           { w with ops := w.ops ++
               [FsOp.make_directory (g_build_path env.log_manager_dir task.task_id)] }) := by
  simp [rstrnt_task_log_data_new, hd, g_set_error, Ne.symm hc]

/-- The directory step with a supplied, empty slot and the error already-exists:
the slot is cleared and the sink phase runs as after a successful `mkdir`. -/
theorem task_log_data_new_directory_exists (env : Env) (task : RstrntTask) (w : World)
    (e : GError)
    (hd : env.make_directory (g_build_path env.log_manager_dir task.task_id) = some e)
    (hc : e.code = G_IO_ERROR_EXISTS) :
    rstrnt_task_log_data_new env task (some none) w =
      rstrnt_task_log_data_new_sinks env (g_build_path env.log_manager_dir task.task_id)
        (some none)
        { w with ops := w.ops ++
            [FsOp.make_directory (g_build_path env.log_manager_dir task.task_id)] } := by
  simp [rstrnt_task_log_data_new, hd, g_set_error, hc, g_clear_error]

/-- The directory step after a successful `mkdir`. -/
theorem task_log_data_new_directory_made (env : Env) (task : RstrntTask) (error : ErrorSlot)
    (w : World)
    (hd : env.make_directory (g_build_path env.log_manager_dir task.task_id) = none) :
    rstrnt_task_log_data_new env task error w =
      rstrnt_task_log_data_new_sinks env (g_build_path env.log_manager_dir task.task_id)
        error
        { w with ops := w.ops ++
            [FsOp.make_directory (g_build_path env.log_manager_dir task.task_id)] } := by
  simp [rstrnt_task_log_data_new, hd]

/-- A miss whose directory step is refused returns no state and the error, and leaves
the hash table as it was, so the next call for the id runs creation again. -/
theorem get_task_data_directory_refused (env : Env) (self : RstrntLogManager)
    (task : RstrntTask) (w : World) (e : GError)
    (hmiss : g_hash_table_lookup self.logs task.task_id = none)
    (hd : env.make_directory (g_build_path env.log_manager_dir task.task_id) = some e)
    (hc : e.code ≠ G_IO_ERROR_EXISTS) :
    rstrnt_log_manager_get_task_data env self task (some none) w =
      .ok (none, some (some e), self,
           { w with ops := w.ops ++
               [FsOp.make_directory (g_build_path env.log_manager_dir task.task_id)] }) := by
  simp [rstrnt_log_manager_get_task_data, hmiss,
    task_log_data_new_directory_refused env task w e hd hc]

/-- A miss whose pool cannot be created returns no state and the error, leaves the
hash table as it was and closes both streams it had opened. -/
theorem get_task_data_pool_refused (env : Env) (self : RstrntLogManager)
    (task : RstrntTask) (w : World) (e : GError)
    (hmiss : g_hash_table_lookup self.logs task.task_id = none)
    (hd : env.make_directory (g_build_path env.log_manager_dir task.task_id) = none)
    (ht : env.append_to (g_build_path (g_build_path env.log_manager_dir task.task_id)
            "task.log") = none)
    (hh : env.append_to (g_build_path (g_build_path env.log_manager_dir task.task_id)
            "harness.log") = none)
    (hp : env.thread_pool_new = some e) :
    ∃ w1, rstrnt_log_manager_get_task_data env self task (some none) w =
        .ok (none, some (some e), self, w1) ∧
      w1.open_streams = w.open_streams ∧ w1.files = w.files ∧ w1.pools = w.pools := by
  simp only [rstrnt_log_manager_get_task_data, hmiss,
    task_log_data_new_directory_made env task _ w hd,
    rstrnt_task_log_data_new_sinks, rstrnt_log_data_new_opened _ _ _ _ ht,
    rstrnt_log_data_new_opened _ _ _ _ hh, g_thread_pool_new, hp,
    rstrnt_task_log_data_destroy, rstrnt_log_data_destroy, g_thread_pool_free, g_set_error]
  refine ⟨_, rfl, ?_, rfl, rfl⟩
  have hne := g_build_path_task_ne_harness (g_build_path env.log_manager_dir task.task_id)
  simp [List.erase_cons, hne, Ne.symm hne]

/-- A miss in an environment where `mkdir`, both opens and the pool creation succeed:
the complete record is returned and registered, its pool is fresh with an empty queue,
and no file content changes. -/
theorem get_task_data_creates (env : Env) (self : RstrntLogManager) (task : RstrntTask)
    (error : ErrorSlot) (w : World)
    (hmiss : g_hash_table_lookup self.logs task.task_id = none)
    (hd : env.make_directory (g_build_path env.log_manager_dir task.task_id) = none)
    (ht : env.append_to (g_build_path (g_build_path env.log_manager_dir task.task_id)
            "task.log") = none)
    (hh : env.append_to (g_build_path (g_build_path env.log_manager_dir task.task_id)
            "harness.log") = none)
    (hp : env.thread_pool_new = none) :
    ∃ self1 w1, rstrnt_log_manager_get_task_data env self task error w =
        .ok (some (task_log_data_of (g_build_path env.log_manager_dir task.task_id)
                w.next_pool), error, self1, w1) ∧
      g_hash_table_lookup self1.logs task.task_id =
        some (task_log_data_of (g_build_path env.log_manager_dir task.task_id) w.next_pool) ∧
      (w1.pools w.next_pool).queue = [] ∧ w1.files = w.files := by
  simp only [rstrnt_log_manager_get_task_data, hmiss,
    task_log_data_new_directory_made env task _ w hd,
    new_sinks_created env _ _ _ ht hh hp]
  refine ⟨_, _, rfl, ?_, ?_, rfl⟩
  · simp only [g_hash_table_insert, g_hash_table_lookup, if_true]
    rfl
  · simp

/-- C4: get-or-create is idempotent on a hit. For every hash table and every task
whose `task_id` is registered, `rstrnt_log_manager_get_task_data` returns the record
stored under that id (its two sinks and its queue), and the hash table, the error
slot and the world (in particular the trace of directory creations and file opens)
are exactly as before; hence a second call for the same `task_id`, made on the state
the first call left, returns the same record again. -/
theorem get_task_data_hit_idempotent (env : Env) (self : RstrntLogManager) (task : RstrntTask)
    (error : ErrorSlot) (w : World) (data : RstrntTaskLogData)
    (hreg : g_hash_table_lookup self.logs task.task_id = some data) :
    rstrnt_log_manager_get_task_data env self task error w = .ok (some data, error, self, w) ∧
    ∀ (env2 : Env) (task2 : RstrntTask) (error2 : ErrorSlot),
      task2.task_id = task.task_id →
      ∃ r, rstrnt_log_manager_get_task_data env self task error w = .ok r ∧
        rstrnt_log_manager_get_task_data env2 r.2.2.1 task2 error2 r.2.2.2 =
          .ok (some data, error2, self, w) := by
  have h1 : rstrnt_log_manager_get_task_data env self task error w =
      .ok (some data, error, self, w) := by
    simp [rstrnt_log_manager_get_task_data, hreg]
  refine ⟨h1, ?_⟩
  intro env2 task2 error2 hid
  refine ⟨_, h1, ?_⟩
  simp [rstrnt_log_manager_get_task_data, hid, hreg]

/-- C6: the directory step of `rstrnt_task_log_data_new`, called with a supplied
(empty) error slot. Creation stops at the directory step, returning `NULL` with
nothing opened, exactly when `mkdir` failed with a code other than
`G_IO_ERROR_EXISTS`, and then the error returned is that of `mkdir`; when `mkdir`
fails with `G_IO_ERROR_EXISTS` the whole result (state, error slot, world, fault)
is the one obtained when `mkdir` succeeds. -/
theorem task_log_data_new_directory_step (env : Env) (task : RstrntTask) (w : World) :
    ((∃ e, env.make_directory (g_build_path env.log_manager_dir task.task_id) = some e ∧
          e.code ≠ G_IO_ERROR_EXISTS) ↔
      ∃ error1, rstrnt_task_log_data_new env task (some none) w =
        .ok (none, error1,
             { w with ops := w.ops ++
                 [FsOp.make_directory (g_build_path env.log_manager_dir task.task_id)] })) ∧
    (∀ e, env.make_directory (g_build_path env.log_manager_dir task.task_id) = some e →
       e.code ≠ G_IO_ERROR_EXISTS →
       rstrnt_task_log_data_new env task (some none) w =
        .ok (none, some (some e),
             { w with ops := w.ops ++
                 [FsOp.make_directory (g_build_path env.log_manager_dir task.task_id)] })) ∧
    (∀ e, env.make_directory (g_build_path env.log_manager_dir task.task_id) = some e →
       e.code = G_IO_ERROR_EXISTS →
       rstrnt_task_log_data_new env task (some none) w =
         rstrnt_task_log_data_new { env with make_directory := fun _ => none } task
           (some none) w) := by
  refine ⟨⟨?_, ?_⟩, ?_, ?_⟩
  · rintro ⟨e, hd, hc⟩
    exact ⟨_, task_log_data_new_directory_refused env task w e hd hc⟩
  · rintro ⟨error1, h⟩
    cases hd : env.make_directory (g_build_path env.log_manager_dir task.task_id) with
    | none =>
      rw [task_log_data_new_directory_made env task _ w hd] at h
      have := new_sinks_ops _ _ _ _ _ _ _ h
      simp at this
    | some e =>
      by_cases hc : e.code = G_IO_ERROR_EXISTS
      · rw [task_log_data_new_directory_exists env task w e hd hc] at h
        have := new_sinks_ops _ _ _ _ _ _ _ h
        simp at this
      · exact ⟨e, rfl, hc⟩
  · intro e hd hc
    exact task_log_data_new_directory_refused env task w e hd hc
  · intro e hd hc
    rw [task_log_data_new_directory_exists env task w e hd hc]
    rw [task_log_data_new_directory_made { env with make_directory := fun _ => none } task _ w rfl]
    rfl

/-- Witness for C4: task "T1" is registered; a call made in an environment in which
creation would be refused returns the stored record and changes nothing. -/
theorem get_task_data_hit_idempotent_witness :
    g_hash_table_lookup manager_T1.logs task_T1.task_id = some data_T1 ∧
    rstrnt_log_manager_get_task_data env_directory_refused manager_T1 task_T1 (some none)
        world_empty = .ok (some data_T1, some none, manager_T1, world_empty) :=
  ⟨by decide,
   (get_task_data_hit_idempotent env_directory_refused manager_T1 task_T1 (some none)
      world_empty data_T1 (by decide)).1⟩

/-- Witness for C6: with the directory of task "T1" already there, creation gives the
result it gives when `mkdir` succeeds. -/
theorem task_log_data_new_directory_step_witness :
    env_directory_exists.make_directory
        (g_build_path env_directory_exists.log_manager_dir task_T1.task_id) =
      some { code := G_IO_ERROR_EXISTS } ∧
    rstrnt_task_log_data_new env_directory_exists task_T1 (some none) world_empty =
      rstrnt_task_log_data_new { env_directory_exists with make_directory := fun _ => none }
        task_T1 (some none) world_empty :=
  ⟨rfl,
   (task_log_data_new_directory_step env_directory_exists task_T1 world_empty).2.2
     { code := G_IO_ERROR_EXISTS } rfl rfl⟩

/-- C5 (failing input): task "T1" is not registered and its `task.log` cannot be
opened for append. `rstrnt_log_manager_get_task_data` does not return `NULL` with an
error: the cleanup inside `rstrnt_task_log_data_new` reads through the `NULL`
sink pointer of the fresh record and the call faults. -/
theorem get_task_data_stream_refused_faults :
    g_hash_table_lookup manager_empty.logs task_T1.task_id = none ∧
    rstrnt_log_manager_get_task_data env_task_log_refused manager_empty task_T1 (some none)
        world_empty = .error .null_dereference := by
  constructor
  · rfl
  · rfl

/-- C7 (failing input): on the failure paths of `rstrnt_task_log_data_new` taken when
`task.log` or `harness.log` cannot be opened, `rstrnt_task_log_data_destroy` passes a
`NULL` sink to `rstrnt_log_data_destroy`, which reads `log_data->output_stream`: the
function faults instead of returning `NULL` with the error. -/
theorem task_log_data_new_cleanup_faults :
    rstrnt_task_log_data_new env_task_log_refused task_T1 (some none) world_empty =
      .error .null_dereference ∧
    rstrnt_task_log_data_new env_harness_log_refused task_T1 (some none) world_empty =
      .error .null_dereference ∧
    rstrnt_task_log_data_destroy
        { task_log_data := none, harness_log_data := none, thread_pool := none } world_empty =
      .error .null_dereference := by
  refine ⟨?_, ?_, ?_⟩
  · rfl
  · rfl
  · rfl

/-! ## Jobs -/

/-- A record returned by the sink phase is the complete one, with the pool at the
address that was free; the error slot is untouched, and in the world only the trace,
the open streams and the fresh pool differ. -/
theorem new_sinks_returns (env : Env) (dir : String) (error : ErrorSlot) (w : World)
    (data : RstrntTaskLogData) (error1 : ErrorSlot) (w1 : World)
    (h : rstrnt_task_log_data_new_sinks env dir error w = .ok (some data, error1, w1)) :
    data = task_log_data_of dir w.next_pool ∧ error1 = error ∧
      w1.files = w.files ∧ w1.sent = w.sent ∧
      w1.pools = Function.update w.pools w.next_pool { queue := [], num_threads := 0 } := by
  cases ht : env.append_to (g_build_path dir "task.log") with
  | some e => rw [new_sinks_task_refused env dir error w e ht] at h; cases h
  | none =>
    cases hh : env.append_to (g_build_path dir "harness.log") with
    | some e => rw [new_sinks_harness_refused env dir error w e ht hh] at h; cases h
    | none =>
      cases hp : env.thread_pool_new with
      | none =>
        rw [new_sinks_created env dir error w ht hh hp] at h
        cases h
        exact ⟨rfl, rfl, rfl, rfl, rfl⟩
      | some e =>
        simp [rstrnt_task_log_data_new_sinks, rstrnt_log_data_new_opened _ _ _ _ ht,
          rstrnt_log_data_new_opened _ _ _ _ hh, g_thread_pool_new, hp,
          rstrnt_task_log_data_destroy, rstrnt_log_data_destroy, g_thread_pool_free] at h

/-- A record returned by `rstrnt_task_log_data_new` has both sinks, each with its
stream open on its own file, and a pool. -/
theorem task_log_data_new_returns (env : Env) (task : RstrntTask) (error : ErrorSlot)
    (w : World) (data : RstrntTaskLogData) (error1 : ErrorSlot) (w1 : World)
    (h : rstrnt_task_log_data_new env task error w = .ok (some data, error1, w1)) :
    data = task_log_data_of (g_build_path env.log_manager_dir task.task_id) w.next_pool := by
  unfold rstrnt_task_log_data_new at h
  cases hd : env.make_directory (g_build_path env.log_manager_dir task.task_id) with
  | none =>
    simp only [hd] at h
    simpa using (new_sinks_returns _ _ _ _ _ _ _ h).1
  | some e =>
    simp only [hd] at h
    cases hs : g_set_error error e with
    | none =>
      simp only [hs] at h
      simpa using (new_sinks_returns _ _ _ _ _ _ _ h).1
    | some held =>
      cases held with
      | none => simp [hs] at h
      | some held =>
        simp only [hs] at h
        split at h
        · cases h
        · simpa using (new_sinks_returns _ _ _ _ _ _ _ h).1

/-- When `rstrnt_task_log_data_new`, given an empty slot, returns a record, the slot
comes back empty, no file content and no request changes, and the pool of the record
is fresh and empty. -/
theorem task_log_data_new_world (env : Env) (task : RstrntTask) (w : World)
    (data : RstrntTaskLogData) (error1 : ErrorSlot) (w1 : World)
    (h : rstrnt_task_log_data_new env task (some none) w = .ok (some data, error1, w1)) :
    error1 = some none ∧ w1.files = w.files ∧ w1.sent = w.sent ∧
      w1.pools = Function.update w.pools w.next_pool { queue := [], num_threads := 0 } := by
  unfold rstrnt_task_log_data_new at h
  cases hd : env.make_directory (g_build_path env.log_manager_dir task.task_id) with
  | none =>
    simp only [hd] at h
    simpa using (new_sinks_returns _ _ _ _ _ _ _ h).2
  | some e =>
    simp only [hd, g_set_error] at h
    split at h
    · cases h
    · simpa [g_clear_error] using (new_sinks_returns _ _ _ _ _ _ _ h).2

/-- The record of a directory and a pool determines the pool. -/
theorem task_log_data_of_pool (dir dir1 : String) (pool pool1 : Nat)
    (h : task_log_data_of dir pool = task_log_data_of dir1 pool1) : pool = pool1 := by
  have := congrArg RstrntTaskLogData.thread_pool h
  simpa [task_log_data_of] using this

/-- What a successful get-or-create with an empty slot means: either the task was
registered with the record returned and nothing changed, or it was not registered and
now is, with a fresh empty pool and every file and request as before. -/
theorem get_task_data_some_inv (env : Env) (self self1 : RstrntLogManager)
    (task : RstrntTask) (dir : String) (pool : Nat) (error1 : ErrorSlot) (w w1 : World)
    (hget : rstrnt_log_manager_get_task_data env self task (some none) w =
      .ok (some (task_log_data_of dir pool), error1, self1, w1)) :
    (g_hash_table_lookup self.logs task.task_id = some (task_log_data_of dir pool) ∧
        self1 = self ∧ w1 = w) ∨
    (g_hash_table_lookup self.logs task.task_id = none ∧
        g_hash_table_lookup self1.logs task.task_id = some (task_log_data_of dir pool) ∧
        w1.files = w.files ∧ w1.sent = w.sent ∧ (w1.pools pool).queue = []) := by
  unfold rstrnt_log_manager_get_task_data at hget
  cases hl : g_hash_table_lookup self.logs task.task_id with
  | some data =>
    simp only [hl, Except.ok.injEq, Prod.mk.injEq, Option.some.injEq] at hget
    obtain ⟨hd, -, hs, hw⟩ := hget
    exact Or.inl ⟨by rw [hd], hs.symm, hw.symm⟩
  | none =>
    simp only [hl] at hget
    cases hnew : rstrnt_task_log_data_new env task (some none) w with
    | error f => rw [hnew] at hget; cases hget
    | ok r =>
      obtain ⟨r1, r2, r3⟩ := r
      rw [hnew] at hget
      cases r1 with
      | none => simp at hget
      | some data =>
        simp only [Except.ok.injEq, Prod.mk.injEq, Option.some.injEq] at hget
        obtain ⟨hd, -, hs, hw⟩ := hget
        subst hd hs hw
        obtain ⟨-, hfiles, hsent, hpools⟩ := task_log_data_new_world env task w _ _ _ hnew
        have hpool := task_log_data_of_pool _ _ _ _
          (task_log_data_new_returns env task _ w _ _ _ hnew)
        refine Or.inr ⟨rfl, ?_, hfiles, hsent, ?_⟩
        · simp [g_hash_table_insert, g_hash_table_lookup]
        · rw [hpools, hpool]
          simp

/-- The job built for a complete record: it points at the sink of its kind and
carries the message. -/
theorem append_to_log_job_of (dir : String) (pool : Nat) (type : RstrntLogType)
    (message : Bytes) :
    rstrnt_log_manager_append_to_log_job (task_log_data_of dir pool) type message =
      { log_data := some { file := g_build_path dir (log_file_name type),
                           output_stream := some (g_build_path dir (log_file_name type)) },
        variant := some message } := by
  cases type <;> rfl

/-- The worker on a job built for a complete record: one `write_all`, whose outcome
decides what reaches the file of the kind; nothing else changes. -/
theorem write_log_func_job (env : Env) (dir : String) (pool : Nat) (type : RstrntLogType)
    (message : Bytes) (w : World) :
    rstrnt_write_log_func env
        (rstrnt_log_manager_append_to_log_job (task_log_data_of dir pool) type message) w =
      .ok { w with
            files := Function.update w.files (g_build_path dir (log_file_name type))
              (w.files (g_build_path dir (log_file_name type)) ++
                match g_output_stream_write_all env w.nwrites message with
                | .written => message
                | .failed count _ => message.take count),
            nwrites := w.nwrites + 1,
            warnings := w.warnings +
              match g_output_stream_write_all env w.nwrites message with
              | .written => 0
              | .failed _ _ => 1 } := by
  rw [append_to_log_job_of]
  unfold rstrnt_write_log_func
  cases hw : g_output_stream_write_all env w.nwrites message <;> simp [hw]

/-- The worker on the sentinel: no effect at all. -/
theorem write_log_func_sentinel (env : Env) (w : World) :
    rstrnt_write_log_func env rstrnt_flush_logs_sentinel w = .ok w := rfl

/-- C10: sentinel and write jobs are never confused. For a record returned by
`rstrnt_task_log_data_new`, the job that `rstrnt_log_manager_append_to_log` builds for
kind TASK or HARNESS and any message (the empty one included) carries the sink of
that kind and the message, differs from the sentinel, and `rstrnt_write_log_func`
handles it as a write: one `write_all` is made, no file other than the one of that kind
changes, and when the write succeeds that file grows by exactly the message. The
job pushed by `rstrnt_flush_logs` is handled as the sentinel: the world (every file
included) is left as it was. -/
theorem write_jobs_and_sentinel_distinct (env0 : Env) (task : RstrntTask) (error : ErrorSlot)
    (w0 : World) (data : RstrntTaskLogData) (error1 : ErrorSlot) (w1 : World)
    (hnew : rstrnt_task_log_data_new env0 task error w0 = .ok (some data, error1, w1))
    (type : RstrntLogType) (message : Bytes) (env : Env) (w : World) :
    let stream := g_build_path (g_build_path env0.log_manager_dir task.task_id)
      (log_file_name type)
    let job := rstrnt_log_manager_append_to_log_job data type message
    job.log_data = some { file := stream, output_stream := some stream } ∧
    job.variant = some message ∧
    job ≠ rstrnt_flush_logs_sentinel ∧
    (∃ w2, rstrnt_write_log_func env job w = .ok w2 ∧
      w2.nwrites = w.nwrites + 1 ∧
      (∀ path, path ≠ stream → w2.files path = w.files path) ∧
      (g_output_stream_write_all env w.nwrites message = .written →
        w2.files stream = w.files stream ++ message) ∧
      (message = [] → w2.files = w.files)) ∧
    rstrnt_write_log_func env rstrnt_flush_logs_sentinel w = .ok w := by
  intro stream job
  have hdata := task_log_data_new_returns _ _ _ _ _ _ _ hnew
  have hjob : job = { log_data := some { file := stream, output_stream := some stream },
                      variant := some message } := by
    show rstrnt_log_manager_append_to_log_job data type message = _
    rw [hdata, append_to_log_job_of]
  refine ⟨by rw [hjob], by rw [hjob], ?_, ?_, rfl⟩
  · rw [hjob]
    intro h
    have := congrArg RstrntLogWriterData.variant h
    simp [rstrnt_flush_logs_sentinel] at this
  · have hrun := write_log_func_job env (g_build_path env0.log_manager_dir task.task_id)
      w0.next_pool type message w
    rw [← hdata] at hrun
    refine ⟨_, hrun, rfl, ?_, ?_, ?_⟩
    · intro path hpath
      simp [Function.update, hpath, stream]
    · intro hw
      simp [hw, stream]
    · intro hm
      subst hm
      funext path
      by_cases hp : path = stream
      · subst hp
        simp [g_output_stream_write_all, stream]
      · simp [Function.update, hp, stream]

/-- Witness for C10: the record created for task "T1" in an empty world; an empty
message for kind HARNESS is a write job, not the sentinel, and the sentinel changes
nothing. -/
theorem write_jobs_and_sentinel_distinct_witness :
    rstrnt_task_log_data_new env_ok task_T1 (some none) world_empty =
      .ok (some data_T1, some none,
           (match rstrnt_task_log_data_new env_ok task_T1 (some none) world_empty with
            | .ok r => r.2.2
            | .error _ => world_empty)) ∧
    rstrnt_log_manager_append_to_log_job data_T1 .RSTRNT_LOG_TYPE_HARNESS [] ≠
      rstrnt_flush_logs_sentinel ∧
    rstrnt_write_log_func env_ok rstrnt_flush_logs_sentinel world_empty = .ok world_empty :=
  have h := write_jobs_and_sentinel_distinct env_ok task_T1 (some none) world_empty data_T1
    (some none) _ rfl .RSTRNT_LOG_TYPE_HARNESS [] env_ok world_empty
  ⟨rfl, h.2.2.1, h.2.2.2.2⟩

/-! ## The consumer on a queue of write jobs -/

/-- The two log files of a directory are told apart by their kind. -/
theorem log_path_injective (dir : String) (a b : RstrntLogType) :
    g_build_path dir (log_file_name a) = g_build_path dir (log_file_name b) ↔ a = b := by
  constructor
  · intro h
    cases a <;> cases b
    · rfl
    · exact absurd h (g_build_path_task_ne_harness dir)
    · exact absurd h.symm (g_build_path_task_ne_harness dir)
    · rfl
  · intro h
    rw [h]

/-- The worker run over the jobs of a list of append calls: it never stops early, and
the world it leaves is described call by call. -/
theorem run_jobs_write_jobs (env : Env) (dir : String) (pool : Nat) :
    ∀ (calls : List (RstrntLogType × Bytes)) (w : World),
    ∃ w1, g_thread_pool_run_jobs env
        (calls.map fun c =>
          rstrnt_log_manager_append_to_log_job (task_log_data_of dir pool) c.1 c.2) w = .ok w1 ∧
      w1.nwrites = w.nwrites + calls.length ∧
      (∀ type, w1.files (g_build_path dir (log_file_name type)) =
        w.files (g_build_path dir (log_file_name type)) ++
          spec_written_bytes env type w.nwrites calls) ∧
      w1.warnings = w.warnings + spec_failed_writes env w.nwrites calls ∧
      (∀ path, (∀ type, path ≠ g_build_path dir (log_file_name type)) →
        w1.files path = w.files path) ∧
      w1.pools = w.pools ∧ w1.sent = w.sent ∧ w1.ops = w.ops ∧
      w1.criticals = w.criticals ∧ w1.open_streams = w.open_streams ∧
      w1.next_pool = w.next_pool := by
  intro calls
  induction calls with
  | nil =>
    intro w
    exact ⟨w, rfl, rfl, by simp [spec_written_bytes], by simp [spec_failed_writes],
      fun _ _ => rfl, rfl, rfl, rfl, rfl, rfl, rfl⟩
  | cons c rest ih =>
    intro w
    obtain ⟨w1, hrun, hn, hfiles, hwarn, hother, hpools, hsent, hops, hcrit, hopen, hnext⟩ :=
      ih { w with
            files := Function.update w.files (g_build_path dir (log_file_name c.1))
              (w.files (g_build_path dir (log_file_name c.1)) ++
                match g_output_stream_write_all env w.nwrites c.2 with
                | .written => c.2
                | .failed count _ => List.take count c.2),
            nwrites := w.nwrites + 1,
            warnings := w.warnings +
              match g_output_stream_write_all env w.nwrites c.2 with
              | .written => 0
              | .failed _ _ => 1 }
    refine ⟨w1, ?_, ?_, ?_, ?_, ?_, hpools, hsent, hops, hcrit, hopen, hnext⟩
    · simp only [List.map_cons, g_thread_pool_run_jobs, write_log_func_job]
      exact hrun
    · rw [hn]
      simp only [List.length_cons]
      omega
    · intro type
      rw [hfiles type]
      simp only [spec_written_bytes, List.enumFrom_cons, List.flatMap_cons, spec_write_piece]
      by_cases hct : c.1 = type
      · subst hct
        simp [Function.update, List.append_assoc]
      · have hne : g_build_path dir (log_file_name type) ≠
            g_build_path dir (log_file_name c.1) := by
          intro h
          exact hct ((log_path_injective dir _ _).1 h).symm
        simp [Function.update, hne, hct]
    · rw [hwarn]
      simp only [spec_failed_writes, List.enumFrom_cons, List.filter_cons]
      cases hw : g_output_stream_write_all env w.nwrites c.2 with
      | written => simp [hw]
      | failed count err => simp [hw]; omega
    · intro path hpath
      rw [hother path hpath]
      simp [Function.update, hpath c.1]

/-- A registered task: an append call pushes the job built for its record and
leaves the manager as it was. -/
theorem append_to_log_hit (env : Env) (self : RstrntLogManager) (task : RstrntTask)
    (type : RstrntLogType) (message : Bytes) (w : World) (data : RstrntTaskLogData)
    (hreg : g_hash_table_lookup self.logs task.task_id = some data) :
    rstrnt_log_manager_append_to_log env self task type message w =
      .ok (self, g_thread_pool_push env data.thread_pool
                   (rstrnt_log_manager_append_to_log_job data type message) w) := by
  simp [rstrnt_log_manager_append_to_log, rstrnt_log_manager_get_task_data, hreg]

/-- C9: a write failure does not stop the consumer. Let the queue of a pool hold the
jobs that `rstrnt_log_manager_append_to_log` built for any list of append calls of a
task, and let the outcomes of the writes (`env.write_all`) be arbitrary. The worker
runs to the end of the queue without stopping: `rstrnt_write_log_func` is called on
every job (one `write_all` per job), the queue ends empty, and the file of each kind
holds its old contents followed, in queue order, by the piece of each of its jobs: the
whole payload when that write succeeded, the bytes written before the error when it
failed. Each failure adds one warning and nothing else. The outcome of a write is not
seen by the call that queued the job: `rstrnt_log_manager_append_to_log` returns the
same result whatever the outcomes are. -/
theorem write_failure_does_not_stop_consumer (env : Env) (dir : String) (pool : Nat)
    (calls : List (RstrntLogType × Bytes)) (w : World)
    (hq : (w.pools pool).queue =
      calls.map fun c =>
        rstrnt_log_manager_append_to_log_job (task_log_data_of dir pool) c.1 c.2) :
    (∃ w1, g_thread_pool_drain env pool w = .ok w1 ∧
      (w1.pools pool).queue = [] ∧
      w1.nwrites = w.nwrites + calls.length ∧
      (∀ type, w1.files (g_build_path dir (log_file_name type)) =
        w.files (g_build_path dir (log_file_name type)) ++
          spec_written_bytes env type w.nwrites calls) ∧
      w1.warnings = w.warnings + spec_failed_writes env w.nwrites calls) ∧
    (∀ (outcomes : Nat → WriteOutcome) (self : RstrntLogManager) (task : RstrntTask)
        (type : RstrntLogType) (message : Bytes) (w0 : World),
      rstrnt_log_manager_append_to_log { env with write_all := outcomes } self task type
          message w0 =
        rstrnt_log_manager_append_to_log env self task type message w0) := by
  constructor
  · obtain ⟨w1, hrun, hn, hfiles, hwarn, -, hpools, -⟩ :=
      run_jobs_write_jobs env dir pool calls
        { w with pools := Function.update w.pools pool { (w.pools pool) with queue := [] } }
    refine ⟨w1, ?_, ?_, hn, hfiles, hwarn⟩
    · unfold g_thread_pool_drain
      rw [hq]
      exact hrun
    · rw [hpools]
      simp
  · intro outcomes self task type message w0
    rfl

/-! ## Appends followed by a drain -/

/-- When every write succeeds, the piece of a write is its payload. -/
theorem spec_write_piece_written (env : Env) (hw : ∀ k, env.write_all k = .written)
    (k : Nat) (message : Bytes) : spec_write_piece env k message = message := by
  simp [spec_write_piece, g_output_stream_write_all, hw]

/-- When every write succeeds, the pieces are the payloads. -/
theorem spec_written_bytes_all_written (env : Env) (hw : ∀ k, env.write_all k = .written)
    (type : RstrntLogType) :
    ∀ (calls : List (RstrntLogType × Bytes)) (k : Nat),
      spec_written_bytes env type k calls = spec_payloads type calls := by
  intro calls
  induction calls with
  | nil => intro k; rfl
  | cons c rest ih =>
    intro k
    have hrest := ih (k + 1)
    simp only [spec_written_bytes, spec_payloads] at hrest
    simp only [spec_written_bytes, spec_payloads, List.enumFrom_cons, List.flatMap_cons,
      spec_write_piece_written env hw]
    rw [← hrest]
    simp only [spec_write_piece_written env hw]

/-- The payloads of two call lists in a row. -/
theorem spec_payloads_append (type : RstrntLogType) (a b : List (RstrntLogType × Bytes)) :
    spec_payloads type (a ++ b) = spec_payloads type a ++ spec_payloads type b := by
  simp [spec_payloads]

/-- The invariant of a run on a registered task when every write succeeds: for each
kind, the file followed by the payloads still queued is what it was at the start
followed by the payloads of the calls made. -/
theorem run_log_events_invariant (env : Env) (self : RstrntLogManager) (task : RstrntTask)
    (dir : String) (pool : Nat)
    (hreg : g_hash_table_lookup self.logs task.task_id = some (task_log_data_of dir pool))
    (hw : ∀ k, env.write_all k = .written) :
    ∀ (events : List LogEvent) (queued : List (RstrntLogType × Bytes)) (w : World),
      (w.pools pool).queue =
        queued.map (fun c =>
          rstrnt_log_manager_append_to_log_job (task_log_data_of dir pool) c.1 c.2) →
      ∃ w1 queued1, run_log_events env task pool events (self, w) = .ok (self, w1) ∧
        (w1.pools pool).queue =
          queued1.map (fun c =>
            rstrnt_log_manager_append_to_log_job (task_log_data_of dir pool) c.1 c.2) ∧
        ∀ type, w1.files (g_build_path dir (log_file_name type)) ++ spec_payloads type queued1 =
          w.files (g_build_path dir (log_file_name type)) ++ spec_payloads type queued ++
            spec_payloads type (log_calls events) := by
  intro events
  induction events with
  | nil =>
    intro queued w hq
    exact ⟨w, queued, rfl, hq, fun type => by simp [log_calls, spec_payloads]⟩
  | cons ev rest ih =>
    intro queued w hq
    cases ev with
    | log type message =>
      have hq1 : ((g_thread_pool_push env (some pool)
          (rstrnt_log_manager_append_to_log_job (task_log_data_of dir pool) type message)
          w).pools pool).queue =
          (queued ++ [(type, message)]).map (fun c =>
            rstrnt_log_manager_append_to_log_job (task_log_data_of dir pool) c.1 c.2) := by
        simp [g_thread_pool_push, hq]
      obtain ⟨w1, queued1, hrun, hq2, hfiles⟩ := ih _ _ hq1
      refine ⟨w1, queued1, ?_, hq2, ?_⟩
      · simp only [run_log_events, rstrnt_log_bytes,
          append_to_log_hit env self task type message w _ hreg]
        exact hrun
      · intro ty
        rw [hfiles ty, spec_payloads_append]
        simp [g_thread_pool_push, log_calls, spec_payloads, List.append_assoc]
    | work =>
      cases queued with
      | nil =>
        have hq0 : (w.pools pool).queue = [] := by simpa using hq
        obtain ⟨w1, queued1, hrun, hq2, hfiles⟩ := ih [] w hq
        refine ⟨w1, queued1, ?_, hq2, ?_⟩
        · simp only [run_log_events, g_thread_pool_work, hq0]
          exact hrun
        · intro ty
          rw [hfiles ty]
          simp [log_calls]
      | cons c queued2 =>
        have hq0 : (w.pools pool).queue =
            rstrnt_log_manager_append_to_log_job (task_log_data_of dir pool) c.1 c.2 ::
              queued2.map (fun c =>
                rstrnt_log_manager_append_to_log_job (task_log_data_of dir pool) c.1 c.2) := by
          simpa using hq
        obtain ⟨w1, queued1, hrun, hq2, hfiles⟩ := ih queued2
          { w with
            pools := Function.update w.pools pool
              { (w.pools pool) with
                queue := queued2.map (fun c =>
                  rstrnt_log_manager_append_to_log_job (task_log_data_of dir pool) c.1 c.2) },
            files := Function.update w.files (g_build_path dir (log_file_name c.1))
              (w.files (g_build_path dir (log_file_name c.1)) ++ c.2),
            nwrites := w.nwrites + 1 }
          (by simp)
        refine ⟨w1, queued1, ?_, hq2, ?_⟩
        · simp only [run_log_events, g_thread_pool_work, hq0, write_log_func_job,
            g_output_stream_write_all, hw]
          simpa using hrun
        · intro ty
          rw [hfiles ty]
          by_cases hct : c.1 = ty
          · subst hct
            simp [log_calls, spec_payloads, Function.update, List.append_assoc]
          · have hne : g_build_path dir (log_file_name ty) ≠
                g_build_path dir (log_file_name c.1) := by
              intro h
              exact hct ((log_path_injective dir _ _).1 h).symm
            simp [log_calls, spec_payloads, Function.update, hne, hct]

/-- A run on a registered task followed by a drain, when every write succeeds: each
file ends as it was, then the payloads that were queued, then those of the calls. -/
theorem run_log_events_then_drain (env : Env) (self : RstrntLogManager) (task : RstrntTask)
    (dir : String) (pool : Nat)
    (hreg : g_hash_table_lookup self.logs task.task_id = some (task_log_data_of dir pool))
    (hw : ∀ k, env.write_all k = .written)
    (events : List LogEvent) (queued : List (RstrntLogType × Bytes)) (w : World)
    (hq : (w.pools pool).queue =
      queued.map (fun c =>
        rstrnt_log_manager_append_to_log_job (task_log_data_of dir pool) c.1 c.2)) :
    ∃ w1 w2, run_log_events env task pool events (self, w) = .ok (self, w1) ∧
      g_thread_pool_drain env pool w1 = .ok w2 ∧
      (w2.pools pool).queue = [] ∧
      ∀ type, w2.files (g_build_path dir (log_file_name type)) =
        w.files (g_build_path dir (log_file_name type)) ++ spec_payloads type queued ++
          spec_payloads type (log_calls events) := by
  obtain ⟨w1, queued1, hrun, hq1, hfiles⟩ :=
    run_log_events_invariant env self task dir pool hreg hw events queued w hq
  obtain ⟨w2, hdrain, -, hfiles2, -, -, hpools, -⟩ :=
    run_jobs_write_jobs env dir pool queued1
      { w1 with pools := Function.update w1.pools pool { (w1.pools pool) with queue := [] } }
  refine ⟨w1, w2, hrun, ?_, ?_, ?_⟩
  · unfold g_thread_pool_drain
    rw [hq1]
    exact hdrain
  · rw [hpools]
    simp
  · intro type
    have h1 := hfiles2 type
    rw [spec_written_bytes_all_written env hw type] at h1
    rw [h1]
    exact hfiles type

/-- C1: appends reach the right file, whole and in order. Take a task for which
get-or-create succeeds (it is registered with, or can be given, a record as
`rstrnt_task_log_data_new` builds it), its queue empty, and an environment in which
every write succeeds. For every run made of calls of `rstrnt_log_bytes` for that task
(kinds TASK and HARNESS mixed in any way) with turns of the worker placed anywhere
between them, the run succeeds; once the worker has then drained the queue, the queue
is empty, `task.log` holds its initial contents followed by the payloads of the TASK
calls concatenated in call order, and `harness.log` its initial contents followed by
those of the HARNESS calls. -/
theorem appended_payloads_reach_their_log (env : Env) (self self1 : RstrntLogManager)
    (task : RstrntTask) (dir : String) (pool : Nat) (error1 : ErrorSlot)
    (events : List LogEvent) (w w1 : World)
    (hget : rstrnt_log_manager_get_task_data env self task (some none) w =
      .ok (some (task_log_data_of dir pool), error1, self1, w1))
    (hq : (w.pools pool).queue = [])
    (hw : ∀ k, env.write_all k = .written) :
    ∃ self2 w2 w3, run_log_events env task pool events (self, w) = .ok (self2, w2) ∧
      g_thread_pool_drain env pool w2 = .ok w3 ∧
      (w3.pools pool).queue = [] ∧
      w3.files (g_build_path dir "task.log") =
        w.files (g_build_path dir "task.log") ++
          spec_payloads .RSTRNT_LOG_TYPE_TASK (log_calls events) ∧
      w3.files (g_build_path dir "harness.log") =
        w.files (g_build_path dir "harness.log") ++
          spec_payloads .RSTRNT_LOG_TYPE_HARNESS (log_calls events) := by
  have hgoal : ∃ self2 w2 w3, run_log_events env task pool events (self, w) = .ok (self2, w2) ∧
      g_thread_pool_drain env pool w2 = .ok w3 ∧
      (w3.pools pool).queue = [] ∧
      ∀ type, w3.files (g_build_path dir (log_file_name type)) =
        w.files (g_build_path dir (log_file_name type)) ++
          spec_payloads type (log_calls events) := by
    rcases get_task_data_some_inv env self self1 task dir pool error1 w w1 hget with
      ⟨hreg, -, -⟩ | ⟨-, hreg1, hfiles1, -, -⟩
    · obtain ⟨w2, w3, hrun, hdrain, hempty, hfiles⟩ :=
        run_log_events_then_drain env self task dir pool hreg hw events [] w (by simpa using hq)
      refine ⟨self, w2, w3, hrun, hdrain, hempty, ?_⟩
      intro type
      rw [hfiles type]
      simp [spec_payloads]
    · induction events with
      | nil =>
        refine ⟨self, w,
          { w with pools := Function.update w.pools pool { (w.pools pool) with queue := [] } },
          rfl, ?_, ?_, ?_⟩
        · simp only [g_thread_pool_drain, hq, g_thread_pool_run_jobs]
        · simp
        · intro type
          simp [log_calls, spec_payloads]
      | cons ev rest ih =>
        cases ev with
        | work =>
          obtain ⟨self2, w2, w3, hrun, hrest⟩ := ih
          refine ⟨self2, w2, w3, ?_, ?_⟩
          · simp only [run_log_events, g_thread_pool_work, hq]
            exact hrun
          · simpa [log_calls] using hrest
        | log type message =>
          obtain ⟨w2, w3, hrun, hdrain, hempty, hfiles⟩ :=
            run_log_events_then_drain env self1 task dir pool hreg1 hw rest [(type, message)]
              (g_thread_pool_push env (some pool)
                (rstrnt_log_manager_append_to_log_job (task_log_data_of dir pool) type message)
                w1)
              (by simp [g_thread_pool_push,
                    (get_task_data_some_inv env self self1 task dir pool error1 w w1 hget).elim
                      (fun h => by rw [h.2.2]; exact hq) (fun h => h.2.2.2.2)])
          refine ⟨self1, w2, w3, ?_, hdrain, hempty, ?_⟩
          · simp only [run_log_events, rstrnt_log_bytes, rstrnt_log_manager_append_to_log, hget,
              task_log_data_of]
            simpa only [task_log_data_of] using hrun
          · intro ty
            rw [hfiles ty]
            simp [g_thread_pool_push, hfiles1, log_calls, spec_payloads, List.append_assoc]
  obtain ⟨self2, w2, w3, hrun, hdrain, hempty, hfiles⟩ := hgoal
  exact ⟨self2, w2, w3, hrun, hdrain, hempty, hfiles .RSTRNT_LOG_TYPE_TASK,
    hfiles .RSTRNT_LOG_TYPE_HARNESS⟩

/-! ## Flush and upload -/

/-- The pool after a push: the job is queued; a worker thread is there afterwards when
one was there before or the start succeeds. -/
theorem queue_push_pool (env : Env) (pool : Nat) (job : RstrntLogWriterData) (w : World) :
    (g_thread_pool_push env (some pool) job w).pools pool =
      { queue := (w.pools pool).queue ++ [job],
        num_threads :=
          if (w.pools pool).num_threads < 1 ∧ env.thread_start w.nstarts = true
          then (w.pools pool).num_threads + 1
          else (w.pools pool).num_threads } := by
  simp [g_thread_pool_push]

/-- After a push there is a worker thread when every thread start succeeds. -/
theorem queue_push_num_threads (env : Env) (hstart : ∀ k, env.thread_start k = true)
    (pool : Nat) (job : RstrntLogWriterData) (w : World) :
    0 < ((g_thread_pool_push env (some pool) job w).pools pool).num_threads := by
  rw [queue_push_pool]
  simp only [hstart, and_true]
  split <;> omega

/-- The worker on a job of a complete record, sentinel or write: it returns, and
leaves the pools, the requests sent and the trace of file-system calls as they were. -/
theorem write_log_func_queue_job (env : Env) (dir : String) (pool : Nat)
    (job : RstrntLogWriterData) (w : World)
    (hjob : job = rstrnt_flush_logs_sentinel ∨ ∃ type message,
      job = rstrnt_log_manager_append_to_log_job (task_log_data_of dir pool) type message) :
    ∃ w1, rstrnt_write_log_func env job w = .ok w1 ∧
      w1.pools = w.pools ∧ w1.sent = w.sent ∧ w1.ops = w.ops := by
  rcases hjob with rfl | ⟨type, message, rfl⟩
  · exact ⟨w, rfl, rfl, rfl, rfl⟩
  · exact ⟨_, write_log_func_job env dir pool type message w, rfl, rfl, rfl⟩

/-- The wait loop on a queue of jobs of a complete record: it returns, and it ends
with the queue empty when the pool has a worker thread. -/
theorem flush_logs_wait_jobs_returns (env : Env) (dir : String) (pool : Nat)
    (num_threads : Nat) :
    ∀ (queue : List RstrntLogWriterData) (w : World),
      (∀ job ∈ queue, job = rstrnt_flush_logs_sentinel ∨ ∃ type message,
        job = rstrnt_log_manager_append_to_log_job (task_log_data_of dir pool) type message) →
      ∃ rest w1, rstrnt_flush_logs_wait_jobs env num_threads queue w = .ok (rest, w1) ∧
        w1.pools = w.pools ∧ w1.sent = w.sent ∧ w1.ops = w.ops ∧
        (0 < num_threads → rest = []) := by
  intro queue
  induction queue with
  | nil =>
    intro w _
    exact ⟨[], w, rfl, rfl, rfl, rfl, fun _ => rfl⟩
  | cons job rest ih =>
    intro w hjobs
    by_cases hn : 0 < num_threads
    · obtain ⟨w1, hrun, hp1, hs1, ho1⟩ :=
        write_log_func_queue_job env dir pool job w (hjobs job (List.mem_cons_self _ _))
      obtain ⟨rest2, w2, hrest, hp2, hs2, ho2, hempty⟩ :=
        ih w1 (fun j hj => hjobs j (List.mem_cons_of_mem _ hj))
      refine ⟨rest2, w2, ?_, hp2.trans hp1, hs2.trans hs1, ho2.trans ho1, hempty⟩
      have hcond :
          rstrnt_flush_logs_keeps_waiting (job :: rest).length num_threads = true := by
        simp [rstrnt_flush_logs_keeps_waiting, hn]
      simp only [rstrnt_flush_logs_wait_jobs, hcond, if_true, hrun]
      exact hrest
    · refine ⟨job :: rest, w, ?_, rfl, rfl, rfl, fun h => absurd h hn⟩
      have hcond :
          rstrnt_flush_logs_keeps_waiting (job :: rest).length num_threads = false := by
        simp [rstrnt_flush_logs_keeps_waiting, hn]
      simp only [rstrnt_flush_logs_wait_jobs, hcond]
      rfl

/-- One stream flush of `rstrnt_flush_logs` on an open stream: it returns, and only
the warning count may change. -/
theorem flush_logs_stream_open (env : Env) (file : String) (error : Option GError)
    (w : World) :
    ∃ error1 w1, rstrnt_flush_logs_stream env
        (some { file := file, output_stream := some file }) error w = .ok (error1, w1) ∧
      w1.files = w.files ∧ w1.pools = w.pools ∧ w1.sent = w.sent ∧ w1.ops = w.ops := by
  cases hf : env.flush file with
  | none => exact ⟨error, w, by simp [rstrnt_flush_logs_stream, hf], rfl, rfl, rfl, rfl⟩
  | some e =>
    refine ⟨some (match error with | none => e | some old => old),
      if G_IO_ERROR_CANCELLED ≠ (match error with | none => e | some old => old).code
      then { w with warnings := w.warnings + 1 } else w, ?_, ?_, ?_, ?_, ?_⟩
    · simp [rstrnt_flush_logs_stream, hf]
    all_goals split <;> rfl

/-- The function `rstrnt_flush_logs` on a task for which get-or-create returns a complete
record whose queue holds jobs of that record: it returns and sends nothing, and it
leaves the queue empty when every thread start succeeds. -/
theorem flush_logs_ready (env : Env) (self self1 : RstrntLogManager) (task : RstrntTask)
    (dir : String) (pool : Nat) (error1 : ErrorSlot) (w w1 : World)
    (hget : rstrnt_log_manager_get_task_data env self task (some none) w =
      .ok (some (task_log_data_of dir pool), error1, self1, w1))
    (hjobs : ∀ job ∈ (w1.pools pool).queue, job = rstrnt_flush_logs_sentinel ∨
      ∃ type message,
        job = rstrnt_log_manager_append_to_log_job (task_log_data_of dir pool) type message) :
    ∃ w2, rstrnt_flush_logs env self task w = .ok (self1, w2) ∧
      w2.sent = w1.sent ∧
      ((∀ k, env.thread_start k = true) → (w2.pools pool).queue = []) := by
  obtain ⟨rest, w3, hwait, hp3, hs3, -, hempty⟩ :=
    flush_logs_wait_jobs_returns env dir pool
      (if (w1.pools pool).num_threads < 1 ∧ env.thread_start w1.nstarts = true
       then (w1.pools pool).num_threads + 1 else (w1.pools pool).num_threads)
      ((w1.pools pool).queue ++ [rstrnt_flush_logs_sentinel])
      (g_thread_pool_push env (some pool) rstrnt_flush_logs_sentinel w1)
      (by
        intro job hj
        rcases List.mem_append.1 hj with h | h
        · exact hjobs job h
        · left
          simpa using h)
  obtain ⟨error2, w4, hf1, -, hp4, hs4, -⟩ :=
    flush_logs_stream_open env (g_build_path dir (log_file_name .RSTRNT_LOG_TYPE_TASK))
      error1.join
      { w3 with pools := Function.update w3.pools pool { (w3.pools pool) with queue := rest } }
  obtain ⟨error3, w5, hf2, -, hp5, hs5, -⟩ :=
    flush_logs_stream_open env (g_build_path dir (log_file_name .RSTRNT_LOG_TYPE_HARNESS))
      error2 w4
  refine ⟨w5, ?_, ?_, ?_⟩
  · simp only [rstrnt_flush_logs, hget, task_log_data_of, rstrnt_flush_logs_wait]
    simp only [task_log_data_of] at hwait hf1 hf2
    rw [queue_push_pool]
    simp only [hwait, hf1, hf2]
  · rw [hs5, hs4]
    simpa [g_thread_pool_push] using hs3
  · intro hstart
    have hn := queue_push_num_threads env hstart pool rstrnt_flush_logs_sentinel w1
    rw [queue_push_pool] at hn
    rw [hp5, hp4]
    simp [hempty hn]

/-- The function `rstrnt_upload_log` on a registered task whose file of the kind can
be mapped: one request is handed to the transport, carrying the file as it is. -/
theorem upload_log_hit (env : Env) (self : RstrntLogManager) (task : RstrntTask)
    (dir : String) (pool : Nat) (type : RstrntLogType) (w : World)
    (hreg : g_hash_table_lookup self.logs task.task_id = some (task_log_data_of dir pool))
    (hmap : env.mapped_file_new (g_build_path dir (log_file_name type)) = none) :
    rstrnt_upload_log env self task type w =
      .ok (self,
        { w with
          ops := w.ops ++ [FsOp.mapped_file_new (g_build_path dir (log_file_name type))],
          sent := w.sent ++
            [{ method := "PUT",
               uri_base := task.task_uri,
               uri_relative := match type with
                 | .RSTRNT_LOG_TYPE_TASK => "logs/task.log"
                 | .RSTRNT_LOG_TYPE_HARNESS => "logs/harness.log",
               request_headers := [("log-level", "2")],
               content_type := "text/plain",
               body := w.files (g_build_path dir (log_file_name type)) }] }) := by
  cases type <;>
    simp [rstrnt_upload_log, rstrnt_log_manager_get_task_data, hreg, task_log_data_of,
      log_file_name, LOG_PATH_TASK, LOG_PATH_HARNESS] at hmap ⊢ <;>
    simp [hmap]

/-- C8: for a task for which get-or-create succeeds (it is registered with, or can be
given, a record as `rstrnt_task_log_data_new` builds it), whose queue holds jobs of that
record and whose two log files can be mapped, `rstrnt_upload_logs` returns having
handed exactly two requests to the transport, the one for kind TASK first and the one
for kind HARNESS second. Each is a PUT to the relative path of its kind
(`LOG_PATH_TASK`, `LOG_PATH_HARNESS`, that is "logs/task.log" and "logs/harness.log")
resolved against `task_uri`, with content type "text/plain" and the header
"log-level: 2", and its body is the whole content of the file of its kind as the call
leaves it. When every attempt to start the worker thread succeeds, the queue has been
drained before the files are read. -/
theorem upload_logs_submits_both_logs (env : Env) (self self1 : RstrntLogManager)
    (task : RstrntTask) (dir : String) (pool : Nat) (error1 : ErrorSlot) (w w1 : World)
    (hget : rstrnt_log_manager_get_task_data env self task (some none) w =
      .ok (some (task_log_data_of dir pool), error1, self1, w1))
    (hjobs : ∀ job ∈ (w.pools pool).queue, job = rstrnt_flush_logs_sentinel ∨
      ∃ type message,
        job = rstrnt_log_manager_append_to_log_job (task_log_data_of dir pool) type message)
    (hmap_task : env.mapped_file_new (g_build_path dir "task.log") = none)
    (hmap_harness : env.mapped_file_new (g_build_path dir "harness.log") = none) :
    ∃ w2, rstrnt_upload_logs env self task w = .ok (self1, w2) ∧
      ((∀ k, env.thread_start k = true) → (w2.pools pool).queue = []) ∧
      w2.sent = w.sent ++
        [{ method := "PUT",
           uri_base := task.task_uri,
           uri_relative := LOG_PATH_TASK,
           request_headers := [("log-level", "2")],
           content_type := "text/plain",
           body := w2.files (g_build_path dir "task.log") },
         { method := "PUT",
           uri_base := task.task_uri,
           uri_relative := LOG_PATH_HARNESS,
           request_headers := [("log-level", "2")],
           content_type := "text/plain",
           body := w2.files (g_build_path dir "harness.log") }] ∧
      LOG_PATH_TASK = "logs/task.log" ∧ LOG_PATH_HARNESS = "logs/harness.log" := by
  have hinv : g_hash_table_lookup self1.logs task.task_id = some (task_log_data_of dir pool) ∧
      w1.sent = w.sent ∧
      ∀ job ∈ (w1.pools pool).queue, job = rstrnt_flush_logs_sentinel ∨
        ∃ type message,
          job = rstrnt_log_manager_append_to_log_job (task_log_data_of dir pool) type message := by
    rcases get_task_data_some_inv env self self1 task dir pool error1 w w1 hget with
      ⟨hreg, hs, hw1⟩ | ⟨-, hreg1, -, hsent, hempty⟩
    · subst hs hw1
      exact ⟨hreg, rfl, hjobs⟩
    · refine ⟨hreg1, hsent, ?_⟩
      rw [hempty]
      intro job hj
      cases hj
  obtain ⟨hreg, hsent1, hjobs1⟩ := hinv
  obtain ⟨w2, hflush, hsent, hqueue⟩ :=
    flush_logs_ready env self self1 task dir pool error1 w w1 hget hjobs1
  simp only [rstrnt_upload_logs, hflush,
    upload_log_hit env self1 task dir pool .RSTRNT_LOG_TYPE_TASK _ hreg hmap_task,
    fun w0 => upload_log_hit env self1 task dir pool .RSTRNT_LOG_TYPE_HARNESS w0 hreg hmap_harness]
  exact ⟨_, rfl, hqueue,
    by simp [hsent, hsent1, log_file_name, LOG_PATH_TASK, LOG_PATH_HARNESS], rfl, rfl⟩

/-! ## The barrier property of the transition system -/

/-- The job function leaves the pools alone. -/
theorem write_log_func_pools (env : Env) (job : RstrntLogWriterData) (w w1 : World)
    (h : rstrnt_write_log_func env job w = .ok w1) : w1.pools = w.pools := by
  unfold rstrnt_write_log_func at h
  split at h
  · cases h; rfl
  · split at h
    · cases h
    · split at h <;> (cases h; rfl)
  · cases h

/-- The initial state satisfies the invariant. -/
theorem queue_init_inv (w : World) (pool : Nat) : QueueInv pool (queue_init w pool) where
  parts := by simp [queue_init]
  worker := by simp [queue_init]
  sentinel := by simp [queue_init]
  seen := by simp [queue_init]
  barrier := by simp [queue_init]

/-- The invariant in terms of lengths. -/
theorem queue_inv_length (pool : Nat) (s : QueueState) (h : QueueInv pool s) :
    s.pushed.length =
      s.applied.length + s.running.toList.length + (s.world.pools pool).queue.length := by
  rw [h.parts]
  simp only [List.length_append]

/-- Pushing a job keeps the invariant of every part that does not look at the phase,
when every thread start succeeds. -/
theorem queue_push_parts (env : Env) (hstart : ∀ k, env.thread_start k = true) (pool : Nat)
    (job : RstrntLogWriterData) (s : QueueState) (h : QueueInv pool s) :
    s.pushed ++ [job] = s.applied ++ s.running.toList ++
        ((g_thread_pool_push env (some pool) job s.world).pools pool).queue ∧
    (((g_thread_pool_push env (some pool) job s.world).pools pool).num_threads = 0 →
      s.running = none ∧
        ((g_thread_pool_push env (some pool) job s.world).pools pool).queue = []) := by
  constructor
  · rw [queue_push_pool, h.parts]
    simp
  · intro h0
    have := queue_push_num_threads env hstart pool job s.world
    omega

/-- Every enabled step keeps the invariant. -/
theorem queue_step_inv (env : Env) (hstart : ∀ k, env.thread_start k = true)
    (data : RstrntTaskLogData) (pool : Nat) (a : QueueAction)
    (s s1 : QueueState) (hinv : QueueInv pool s)
    (hstep : queue_step env data pool a s = some s1) : QueueInv pool s1 := by
  have hlen := queue_inv_length pool s hinv
  cases a with
  | append type message =>
    simp only [queue_step, Option.some.injEq] at hstep
    subst hstep
    obtain ⟨hp, hw⟩ := queue_push_parts env hstart pool
      (rstrnt_log_manager_append_to_log_job data type message) s hinv
    refine ⟨hp, hw, ?_, hinv.seen, hinv.barrier⟩
    intro hph
    obtain ⟨hm, hs⟩ := hinv.sentinel hph
    refine ⟨by simp; omega, ?_⟩
    show (s.pushed ++ [_])[s.mark]? = _
    rw [List.getElem?_append_left hm]
    exact hs
  | flush_push =>
    simp only [queue_step] at hstep
    split at hstep
    · simp only [Option.some.injEq] at hstep
      subst hstep
      obtain ⟨hp, hw⟩ := queue_push_parts env hstart pool rstrnt_flush_logs_sentinel s hinv
      refine ⟨hp, hw, ?_, ?_, ?_⟩
      · intro _
        refine ⟨by simp, ?_⟩
        show (s.pushed ++ [rstrnt_flush_logs_sentinel])[s.pushed.length]? = _
        simp
      · intro u hu
        cases hu
      · intro hf
        cases hf
    · cases hstep
  | read_unprocessed hidden =>
    simp only [queue_step] at hstep
    split at hstep
    · rename_i hen
      obtain ⟨hph, hhid⟩ := hen
      have hsent := hinv.sentinel (by rw [hph]; simp)
      simp only [Option.some.injEq] at hstep
      by_cases hpos : (s.world.pools pool).queue.length - (if hidden = true then 1 else 0) > 0
      · rw [if_pos hpos] at hstep
        subst hstep
        refine ⟨hinv.parts, hinv.worker, fun _ => hsent, ?_, ?_⟩
        · intro u hu
          have hu1 : FlushPhase.saw_unprocessed
              ((s.world.pools pool).queue.length - (if hidden = true then 1 else 0)) =
              FlushPhase.saw_unprocessed u := hu
          injection hu1 with hu2
          rw [← hu2]
          exact hpos
        · intro hf
          have hf1 : FlushPhase.saw_unprocessed
              ((s.world.pools pool).queue.length - (if hidden = true then 1 else 0)) =
              FlushPhase.flushing := hf
          cases hf1
      · rw [if_neg hpos] at hstep
        subst hstep
        refine ⟨hinv.parts, hinv.worker, fun _ => hsent, ?_, ?_⟩
        · intro u hu
          have hu1 : FlushPhase.flushing = FlushPhase.saw_unprocessed u := hu
          cases hu1
        · intro _
          show s.mark ≤ s.applied.length
          have hm := hsent.1
          have hr : s.running.toList.length ≤ 1 := by
            cases s.running <;> simp
          cases hidden with
          | true =>
            obtain ⟨hrun, -⟩ := hhid rfl
            rw [hrun] at hlen
            simp at hlen hpos
            omega
          | false =>
            simp at hpos
            rw [hpos] at hlen
            simp at hlen
            omega
    · cases hstep
  | read_num_threads =>
    simp only [queue_step] at hstep
    split at hstep
    · rename_i u hph
      have hsent := hinv.sentinel (by rw [hph]; simp)
      have hu := hinv.seen u hph
      simp only [Option.some.injEq] at hstep
      by_cases hcond :
          rstrnt_flush_logs_keeps_waiting u (s.world.pools pool).num_threads = true
      · rw [if_pos hcond] at hstep
        subst hstep
        refine ⟨hinv.parts, hinv.worker, fun _ => hsent, ?_, ?_⟩
        · intro v hv
          have hv1 : FlushPhase.waiting = FlushPhase.saw_unprocessed v := hv
          cases hv1
        · intro hf
          have hf1 : FlushPhase.waiting = FlushPhase.flushing := hf
          cases hf1
      · rw [if_neg hcond] at hstep
        subst hstep
        refine ⟨hinv.parts, hinv.worker, fun _ => hsent, ?_, ?_⟩
        · intro v hv
          have hv1 : FlushPhase.flushing = FlushPhase.saw_unprocessed v := hv
          cases hv1
        · intro _
          show s.mark ≤ s.applied.length
          have hnt : (s.world.pools pool).num_threads = 0 := by
            simp [rstrnt_flush_logs_keeps_waiting] at hcond
            exact hcond hu
          obtain ⟨hrun, hq⟩ := hinv.worker hnt
          rw [hrun, hq] at hlen
          simp at hlen
          have hm := hsent.1
          omega
    · cases hstep
  | dequeue =>
    simp only [queue_step] at hstep
    split at hstep
    · rename_i job rest hrun hq
      split at hstep
      · rename_i hnt
        simp only [Option.some.injEq] at hstep
        subst hstep
        refine ⟨?_, ?_, hinv.sentinel, hinv.seen, hinv.barrier⟩
        · have hp := hinv.parts
          rw [hrun, hq] at hp
          simp [hp]
        · intro h0
          simp at h0
          omega
      · cases hstep
    · cases hstep
  | apply =>
    simp only [queue_step] at hstep
    split at hstep
    · cases hstep
    · rename_i job hrun
      split at hstep
      · cases hstep
      · rename_i w1 hw1
        simp only [Option.some.injEq] at hstep
        subst hstep
        have hpools := write_log_func_pools env job s.world w1 hw1
        refine ⟨?_, ?_, ?_, hinv.seen, ?_⟩
        · have hp := hinv.parts
          rw [hrun] at hp
          simp [hp, hpools]
        · intro h0
          simp only [hpools] at h0
          have := (hinv.worker h0).1
          rw [hrun] at this
          cases this
        · exact hinv.sentinel
        · intro hf
          have := hinv.barrier hf
          simp
          omega
  | retire =>
    simp only [queue_step] at hstep
    split at hstep
    · rename_i hen
      simp only [Option.some.injEq] at hstep
      subst hstep
      obtain ⟨hrun, hq, -⟩ := hen
      refine ⟨?_, ?_, hinv.sentinel, hinv.seen, hinv.barrier⟩
      · have hp := hinv.parts
        rw [hq] at hp
        simp [hp]
      · intro _
        exact ⟨hrun, by simp⟩
    · cases hstep

/-- Every run keeps the invariant, when every thread start succeeds. -/
theorem queue_run_inv (env : Env) (hstart : ∀ k, env.thread_start k = true)
    (data : RstrntTaskLogData) (pool : Nat) :
    ∀ (actions : List QueueAction) (s s1 : QueueState), QueueInv pool s →
      queue_run env data pool actions s = some s1 → QueueInv pool s1 := by
  intro actions
  induction actions with
  | nil =>
    intro s s1 hinv hrun
    simp only [queue_run, Option.some.injEq] at hrun
    subst hrun
    exact hinv
  | cons a rest ih =>
    intro s s1 hinv hrun
    simp only [queue_run] at hrun
    cases hstep : queue_step env data pool a s with
    | none => rw [hstep] at hrun; cases hrun
    | some s2 =>
      rw [hstep] at hrun
      exact ih s2 s1 (queue_step_inv env hstart data pool a s s2 hinv hstep) hrun

/-- What a job that did not fault put into the files, when every write succeeds. -/
theorem write_log_func_files (env : Env) (hw : ∀ k, env.write_all k = .written)
    (job : RstrntLogWriterData) (w w1 : World)
    (h : rstrnt_write_log_func env job w = .ok w1) (stream : String) :
    w1.files stream = w.files stream ++ job_payload stream job := by
  unfold rstrnt_write_log_func at h
  unfold job_payload
  split at h
  · rename_i hv hl
    cases h
    simp [hv, hl]
  · rename_i message log_data hv hl
    rw [hv, hl]
    split at h
    · cases h
    · rename_i st hst
      have hout : g_output_stream_write_all env w.nwrites message = .written := by
        simp [g_output_stream_write_all, hw]
      rw [hout] at h
      cases h
      by_cases hs : st = stream
      · subst hs
        simp [hst]
      · have hs2 : stream ≠ st := fun e => hs e.symm
        simp [hst, hs, Function.update, hs2]
  · cases h

/-- Along a run the applied jobs only grow, and when every write succeeds the files
grow by the payloads of the jobs applied meanwhile. -/
theorem queue_run_files (env : Env) (hw : ∀ k, env.write_all k = .written)
    (data : RstrntTaskLogData) (pool : Nat) :
    ∀ (actions : List QueueAction) (s s1 : QueueState),
      queue_run env data pool actions s = some s1 →
      ∃ extra, s1.applied = s.applied ++ extra ∧
        ∀ stream, s1.world.files stream =
          s.world.files stream ++ extra.flatMap (job_payload stream) := by
  intro actions
  induction actions with
  | nil =>
    intro s s1 hrun
    simp only [queue_run, Option.some.injEq] at hrun
    subst hrun
    exact ⟨[], by simp, by simp⟩
  | cons a rest ih =>
    intro s s1 hrun
    simp only [queue_run] at hrun
    cases hstep : queue_step env data pool a s with
    | none => rw [hstep] at hrun; cases hrun
    | some s2 =>
      rw [hstep] at hrun
      obtain ⟨extra, happ, hfiles⟩ := ih s2 s1 hrun
      have hone : ∃ first, s2.applied = s.applied ++ first ∧
          ∀ stream, s2.world.files stream =
            s.world.files stream ++ first.flatMap (job_payload stream) := by
        cases a with
        | append type message =>
          simp only [queue_step, Option.some.injEq] at hstep
          subst hstep
          exact ⟨[], by simp, by simp [g_thread_pool_push]⟩
        | flush_push =>
          simp only [queue_step] at hstep
          split at hstep
          · simp only [Option.some.injEq] at hstep
            subst hstep
            exact ⟨[], by simp, by simp [g_thread_pool_push]⟩
          · cases hstep
        | read_unprocessed hidden =>
          simp only [queue_step] at hstep
          split at hstep
          · simp only [Option.some.injEq] at hstep
            subst hstep
            exact ⟨[], by simp, by simp⟩
          · cases hstep
        | read_num_threads =>
          simp only [queue_step] at hstep
          split at hstep
          · simp only [Option.some.injEq] at hstep
            subst hstep
            exact ⟨[], by simp, by simp⟩
          · cases hstep
        | dequeue =>
          simp only [queue_step] at hstep
          split at hstep
          · split at hstep
            · simp only [Option.some.injEq] at hstep
              subst hstep
              exact ⟨[], by simp, by simp⟩
            · cases hstep
          · cases hstep
        | apply =>
          simp only [queue_step] at hstep
          split at hstep
          · cases hstep
          · rename_i job hrunning
            split at hstep
            · cases hstep
            · rename_i w1 hw1
              simp only [Option.some.injEq] at hstep
              subst hstep
              refine ⟨[job], rfl, ?_⟩
              intro stream
              simpa using write_log_func_files env hw job s.world w1 hw1 stream
        | retire =>
          simp only [queue_step] at hstep
          split at hstep
          · simp only [Option.some.injEq] at hstep
            subst hstep
            exact ⟨[], by simp, by simp⟩
          · cases hstep
      obtain ⟨first, happ1, hfiles1⟩ := hone
      refine ⟨first ++ extra, ?_, ?_⟩
      · rw [happ, happ1, List.append_assoc]
      · intro stream
        rw [hfiles stream, hfiles1 stream]
        simp [List.append_assoc]

/-- C2 (as amended): the flush barrier. Take the transition system of one task's pool
(producers pushing append jobs, the flushing thread pushing its sentinel and reading
the two values of its loop condition one after the other, the single worker taking a
job, applying it, and leaving the pool when idle), started from the pool as
`g_thread_pool_new` leaves it, in an environment in which every attempt of
`g_thread_pool_push` to start the worker thread succeeds. In every reachable state in
which the wait loop of `rstrnt_flush_logs` has ended, the job at position `mark` of the
push history is the sentinel, and every job pushed before it has been applied: the
first `mark` jobs pushed are the first `mark` jobs applied, so none of them is the job
the worker is running or a job still queued (the history is the applied jobs, then the
running one, then the queue). When every write succeeds, each file then holds its
initial contents followed by the payloads of all its jobs pushed before the sentinel,
in push order (and possibly by payloads of jobs applied later). -/
theorem flush_barrier_waits_for_earlier_writes (env : Env) (data : RstrntTaskLogData)
    (pool : Nat) (w : World) (actions : List QueueAction) (s : QueueState)
    (hstart : ∀ k, env.thread_start k = true)
    (hrun : queue_run env data pool actions (queue_init w pool) = some s)
    (hflushing : s.phase = .flushing) :
    s.pushed[s.mark]? = some rstrnt_flush_logs_sentinel ∧
    s.mark ≤ s.applied.length ∧
    s.applied.take s.mark = s.pushed.take s.mark ∧
    s.pushed = s.applied ++ s.running.toList ++ (s.world.pools pool).queue ∧
    ((∀ k, env.write_all k = .written) →
      ∀ stream, ∃ later, s.world.files stream =
        w.files stream ++ (s.pushed.take s.mark).flatMap (job_payload stream) ++ later) := by
  have hinv := queue_run_inv env hstart data pool actions _ s (queue_init_inv w pool) hrun
  have hmark := hinv.barrier hflushing
  have htake : s.applied.take s.mark = s.pushed.take s.mark := by
    rw [hinv.parts, List.append_assoc, List.take_append_of_le_length hmark]
  refine ⟨(hinv.sentinel (by rw [hflushing]; simp)).2, hmark, htake, hinv.parts, ?_⟩
  intro hw stream
  obtain ⟨extra, happ, hfiles⟩ := queue_run_files env hw data pool actions _ s hrun
  have happ1 : s.applied = extra := by simpa [queue_init] using happ
  subst happ1
  refine ⟨(s.applied.drop s.mark).flatMap (job_payload stream), ?_⟩
  rw [hfiles stream, ← htake, List.append_assoc, ← List.flatMap_append,
    List.take_append_drop]
  rfl

/-- Witness for C2: in the run `actions_barrier`, with every thread start succeeding,
the loop ends while the worker holds the sentinel; the append pushed before it has
been applied. -/
theorem flush_barrier_waits_for_earlier_writes_witness :
    (∀ k, env_ok.thread_start k = true) ∧
    ∃ s, queue_run env_ok data_T1 0 actions_barrier (queue_init world_empty 0) = some s ∧
      s.phase = .flushing ∧ s.mark = 1 ∧
      s.applied.take s.mark = s.pushed.take s.mark ∧
      s.running = some rstrnt_flush_logs_sentinel :=
  ⟨fun _ => rfl, _, rfl, rfl, rfl,
   (flush_barrier_waits_for_earlier_writes env_ok data_T1 0 world_empty actions_barrier _
      (fun _ => rfl) rfl rfl).2.2.1, rfl⟩

/-- C2 (counterexample): when no worker thread can be started, both pushes leave their
job queued with `num_threads = 0` (their result is discarded at lines 429 and 274). In
the run `actions_no_worker` the flushing thread reads 2 unprocessed jobs, then 0 worker
threads, and the wait loop ends: the state is reachable, the loop has ended, the
append pushed before the sentinel is still queued, nothing has been applied and
`task.log` is still empty. -/
theorem flush_barrier_passed_without_worker :
    ∃ s, queue_run env_thread_refused data_T1 0 actions_no_worker
        (queue_init world_empty 0) = some s ∧
      s.phase = .flushing ∧
      s.mark = 1 ∧
      s.pushed = [rstrnt_log_manager_append_to_log_job data_T1 .RSTRNT_LOG_TYPE_TASK
                    "a".toList, rstrnt_flush_logs_sentinel] ∧
      s.applied = [] ∧
      s.running = none ∧
      (s.world.pools 0).queue = s.pushed ∧
      (s.world.pools 0).num_threads = 0 ∧
      s.world.files "/var/lib/restraint/logs/T1/task.log" = [] ∧
      ¬ s.mark ≤ s.applied.length := by
  refine ⟨_, rfl, rfl, rfl, rfl, rfl, rfl, rfl, rfl, rfl, ?_⟩
  decide

/-- C3 (as amended): the wait loop of `rstrnt_flush_logs` goes on exactly while the
queue reports at least one unprocessed job and the pool reports at least one worker
thread; for every pair of values read, the loop ends and the flush proceeds if and only
if the number of unprocessed jobs is zero or the number of worker threads is zero. -/
theorem flush_wait_ends_iff (unprocessed num_threads : Nat) :
    rstrnt_flush_logs_keeps_waiting unprocessed num_threads = false ↔
      (unprocessed = 0 ∨ num_threads = 0) := by
  simp only [rstrnt_flush_logs_keeps_waiting, Bool.and_eq_false_iff, decide_eq_false_iff_not]
  omega

/-- C3 (counterexample): the loop ends on the pair (3 unprocessed jobs, 0 worker
threads), it ends on the pair (0 unprocessed jobs, 1 worker thread), and in the run
`actions_busy` it has ended while the worker is in the middle of a write job. -/
theorem flush_wait_ends_while_consumer_busy :
    rstrnt_flush_logs_keeps_waiting 3 0 = false ∧
    rstrnt_flush_logs_keeps_waiting 0 1 = false ∧
    ∃ s, queue_run env_ok data_T1 0 actions_busy (queue_init world_empty 0) = some s ∧
      s.phase = .flushing ∧
      s.running = some (rstrnt_log_manager_append_to_log_job data_T1 .RSTRNT_LOG_TYPE_TASK
        "late".toList) :=
  ⟨rfl, rfl, _, rfl, rfl, rfl⟩

/-! ## Witnesses on the fixtures -/

/-- Witness for C1: the fresh task "T1" in an empty world, the run `events_T1` in which
the worker takes turns between the calls; after the drain `task.log` holds "hello",
"again" and `harness.log` holds "world". -/
theorem appended_payloads_reach_their_log_witness :
    spec_payloads .RSTRNT_LOG_TYPE_TASK (log_calls events_T1) = "hello\nagain\n".toList ∧
    spec_payloads .RSTRNT_LOG_TYPE_HARNESS (log_calls events_T1) = "world\n".toList ∧
    ∃ self2 w2 w3, run_log_events env_ok task_T1 0 events_T1 (manager_empty, world_empty) =
        .ok (self2, w2) ∧
      g_thread_pool_drain env_ok 0 w2 = .ok w3 ∧
      (w3.pools 0).queue = [] ∧
      w3.files (g_build_path "/var/lib/restraint/logs/T1" "task.log") =
        world_empty.files (g_build_path "/var/lib/restraint/logs/T1" "task.log") ++
          spec_payloads .RSTRNT_LOG_TYPE_TASK (log_calls events_T1) ∧
      w3.files (g_build_path "/var/lib/restraint/logs/T1" "harness.log") =
        world_empty.files (g_build_path "/var/lib/restraint/logs/T1" "harness.log") ++
          spec_payloads .RSTRNT_LOG_TYPE_HARNESS (log_calls events_T1) :=
  ⟨by decide, by decide,
   appended_payloads_reach_their_log env_ok manager_empty _ task_T1
     "/var/lib/restraint/logs/T1" 0 _ events_T1 world_empty _ rfl rfl (fun _ => rfl)⟩

/-- Witness for C9: the queue holds the jobs of `calls_T1` and the second write fails
after one byte; the worker still handles all four jobs, `task.log` receives "ab", "c"
and "fg", `harness.log` receives "e", and one warning is logged. -/
theorem write_failure_does_not_stop_consumer_witness :
    (world_queued.pools 0).queue =
      (calls_T1.map fun c =>
        rstrnt_log_manager_append_to_log_job
          (task_log_data_of "/var/lib/restraint/logs/T1" 0) c.1 c.2) ∧
    (∃ w1, g_thread_pool_drain env_second_write_fails 0 world_queued = .ok w1 ∧
      (w1.pools 0).queue = [] ∧
      w1.nwrites = world_queued.nwrites + calls_T1.length ∧
      (∀ type, w1.files (g_build_path "/var/lib/restraint/logs/T1" (log_file_name type)) =
        world_queued.files (g_build_path "/var/lib/restraint/logs/T1" (log_file_name type)) ++
          spec_written_bytes env_second_write_fails type world_queued.nwrites calls_T1) ∧
      w1.warnings = world_queued.warnings +
        spec_failed_writes env_second_write_fails world_queued.nwrites calls_T1) ∧
    spec_written_bytes env_second_write_fails .RSTRNT_LOG_TYPE_TASK 0 calls_T1 =
      "abcfg".toList ∧
    spec_written_bytes env_second_write_fails .RSTRNT_LOG_TYPE_HARNESS 0 calls_T1 =
      "e".toList ∧
    spec_failed_writes env_second_write_fails 0 calls_T1 = 1 :=
  ⟨by decide,
   (write_failure_does_not_stop_consumer env_second_write_fails
      "/var/lib/restraint/logs/T1" 0 calls_T1 world_queued (by decide)).1,
   by decide, by decide, by decide⟩

/-- The jobs queued before the upload of the scenario are the two append jobs. -/
theorem scenario_queue :
    (scenario_state.2.pools 0).queue =
      [rstrnt_log_manager_append_to_log_job (task_log_data_of "/var/lib/restraint/logs/T1" 0)
         .RSTRNT_LOG_TYPE_TASK "hello\n".toList,
       rstrnt_log_manager_append_to_log_job (task_log_data_of "/var/lib/restraint/logs/T1" 0)
         .RSTRNT_LOG_TYPE_HARNESS "world\n".toList] := by
  decide

/-- Witness for C8: the scenario of the specification. After "hello" has been
appended to kind TASK and "world" to kind HARNESS of the fresh task "T1",
`rstrnt_upload_logs` hands over two requests whose bodies are exactly those two
payloads. -/
theorem upload_logs_submits_both_logs_witness :
    (∃ w2, rstrnt_upload_logs env_ok scenario_state.1 task_T1 scenario_state.2 =
        .ok (scenario_state.1, w2) ∧
      (w2.pools 0).queue = [] ∧
      w2.sent = scenario_state.2.sent ++
        [{ method := "PUT",
           uri_base := task_T1.task_uri,
           uri_relative := LOG_PATH_TASK,
           request_headers := [("log-level", "2")],
           content_type := "text/plain",
           body := w2.files (g_build_path "/var/lib/restraint/logs/T1" "task.log") },
         { method := "PUT",
           uri_base := task_T1.task_uri,
           uri_relative := LOG_PATH_HARNESS,
           request_headers := [("log-level", "2")],
           content_type := "text/plain",
           body := w2.files (g_build_path "/var/lib/restraint/logs/T1" "harness.log") }] ∧
      LOG_PATH_TASK = "logs/task.log" ∧ LOG_PATH_HARNESS = "logs/harness.log") ∧
    (match rstrnt_upload_logs env_ok scenario_state.1 task_T1 scenario_state.2 with
      | .ok (_, w2) => w2.sent
      | .error _ => []) =
      [{ method := "PUT",
         uri_base := "http://lab.example/recipes/1/tasks/T1/",
         uri_relative := "logs/task.log",
         request_headers := [("log-level", "2")],
         content_type := "text/plain",
         body := "hello\n".toList },
       { method := "PUT",
         uri_base := "http://lab.example/recipes/1/tasks/T1/",
         uri_relative := "logs/harness.log",
         request_headers := [("log-level", "2")],
         content_type := "text/plain",
         body := "world\n".toList }] :=
  ⟨(upload_logs_submits_both_logs env_ok scenario_state.1 scenario_state.1 task_T1
     "/var/lib/restraint/logs/T1" 0 (some none) scenario_state.2 scenario_state.2 rfl
     (by
       intro job hjob
       rw [scenario_queue] at hjob
       simp only [List.mem_cons, List.mem_singleton, List.not_mem_nil, or_false] at hjob
       rcases hjob with h | h
       · exact Or.inr ⟨_, _, h⟩
       · exact Or.inr ⟨_, _, h⟩)
     rfl rfl).imp fun _ h => ⟨h.1, h.2.1 (fun _ => rfl), h.2.2⟩,
   by decide⟩

end Restraint
